import Mathlib

/-! ## Frogger game engine

A shallow embedding of the game engine of `game.c` (with the score counter of
`score.c` that `move_frog_forward` updates, `next_level` of `project.c` and
`joystick_direction` of `joystick.c`) and theorems about it.

Conventions of the embedding:

* The module-level variables of `game.c` become the fields of `Game`; every
  function that writes them becomes a function `Game → ... → Game`.
* `int8_t` values are `Int`s, unsigned values are `Nat`s.  Every store into an
  `int8_t` goes through `toInt8`, every store into a `uint8_t` through
  `toUInt8`, and the store into the `uint16_t` riverbank status is reduced
  modulo `2^16`.
* The arrays `lane_data`, `lane_position` (3 entries) and `log_data`,
  `log_position` (2 entries) are functions on `Fin 3` and `Fin 2`; the data
  arrays are never written by the program and are constants.
* The `redraw_*` calls only write to the LED matrix, which is not part of the
  game state, so the state transformers leave them out.  The rows that
  `redraw_traffic_lane` and `redraw_river_channel` hand to the LED matrix are
  functions of the state of their own.
* `>>` is the shift on `Nat`.  In C a shift count of at least the width of the
  shifted type is undefined; the count stays below the width whenever the lane
  and log offsets are in `[0, 64)` and `[0, 32)`, and the theorems that read a
  pattern bit assume exactly that.
-/

namespace Frogger

/-! ## Machine integers -/

/-- Narrowing of an integer to `int8_t` (two's complement wrap-around). -/
def toInt8 (x : Int) : Int := (x + 128) % 256 - 128

/-- Narrowing of an integer to `uint8_t`. -/
def toUInt8 (x : Int) : Nat := (x % 256).toNat

/-! ## Constants and data of `game.c` -/

def LANE_DATA_WIDTH : Nat := 64

def LOG_DATA_WIDTH : Nat := 32

/-- Vehicle data: 64 bits for each of the three lanes, bit 0 least significant. -/
def lane_data : Fin 3 → Nat
  | 0 => 0b1100001100011000110000011001100011000011000110001100000110011000
  | 1 => 0b0011100000111000011100000111000011100001110001110000111000011100
  | 2 => 0b0000111100001111000011110000111100001111000001111100001111000111

/-- Log data: 32 bits for each of the two river channels. -/
def log_data : Fin 2 → Nat
  | 0 => 0b11110001100111000111100011111000
  | 1 => 0b11100110111101100001110110011100

def START_ROW : Int := 0

def FIRST_VEHICLE_ROW : Int := 1

def HALFWAY_ROW : Int := 4

def FIRST_RIVER_ROW : Int := 5

def RIVERBANK_ROW : Int := 7

/-- River bank pattern; the least significant bit is column 0. -/
def RIVERBANK : Nat := 0b1101110111011101

/-! ## Game state -/

/-- The module-level variables of `game.c`, and `score` of `score.c`. -/
structure Game where
  /-- Row of the frog, an `int8_t`. -/
  frog_row : Int
  /-- Column of the frog, an `int8_t`. -/
  frog_column : Int
  /-- Flag of the frog being dead, a `uint8_t`. -/
  frog_dead : Nat
  /-- Bit position of each lane shown in column 0, an `int8_t` each. -/
  lane_position : Fin 3 → Int
  /-- Bit position of each log channel shown in column 0, an `int8_t` each. -/
  log_position : Fin 2 → Int
  /-- The edge pattern of the river bank, a `uint16_t`. -/
  riverbank : Nat
  /-- The edge pattern together with the filled holes, a `uint16_t`. -/
  riverbank_status : Nat
  /-- The score, a `uint8_t`. -/
  score : Nat

/-! ## The collision oracle -/

/-- The function `will_frog_die_at_position` of `game.c`: 1 if the frog dies at
`(row, column)`, 0 if it can be there.  The arguments are `int8_t` values. -/
def will_frog_die_at_position (g : Game) (row column : Int) : Nat :=
  if column < 0 ∨ column > 15 then 1
  else if row = 0 ∨ row = 4 then 0
  else if h : 1 ≤ row ∧ row ≤ 3 then
    let lane : Fin 3 := ⟨(row - 1).toNat, by omega⟩
    let bit_position := toUInt8 (g.lane_position lane + column)
    let bit_position :=
      if bit_position ≥ LANE_DATA_WIDTH then bit_position - LANE_DATA_WIDTH
      else bit_position
    (lane_data lane >>> bit_position) &&& 1
  else if h : 5 ≤ row ∧ row ≤ 6 then
    let channel : Fin 2 := ⟨(row - 5).toNat, by omega⟩
    let bit_position := toUInt8 (g.log_position channel + column)
    let bit_position :=
      if bit_position ≥ LOG_DATA_WIDTH then bit_position - LOG_DATA_WIDTH
      else bit_position
    if (log_data channel >>> bit_position) &&& 1 = 0 then 1 else 0
  else if row = 7 then
    (g.riverbank_status >>> column.toNat) &&& 1
  else 1

/-! ## Score (`score.c`) -/

/-- The function `add_to_score` of `score.c`: `score += value` on a `uint8_t`. -/
def add_to_score (g : Game) (value : Nat) : Game :=
  { g with score := (g.score + value) % 256 }

/-- The function `get_score` of `score.c`. -/
def get_score (g : Game) : Nat := g.score

/-! ## Public functions of `game.c` -/

/-- The function `put_frog_in_start_position`: a live frog at row 0, column 7. -/
def put_frog_in_start_position (g : Game) : Game :=
  { g with frog_row := 0, frog_column := 7, frog_dead := 0 }

/-- The function `initialise_game`: offsets to 0, the river bank to its edge
pattern, and a frog at the start. -/
def initialise_game (g : Game) : Game :=
  put_frog_in_start_position
    { g with
      lane_position := fun _ => 0
      log_position := fun _ => 0
      riverbank := RIVERBANK
      riverbank_status := RIVERBANK }

/-- The closing step shared by the four moves: a live frog in row 7 is added
to `riverbank_status` (`riverbank_status |= (1<<frog_column)`). -/
def mark_riverbank (g : Game) : Game :=
  if g.frog_dead = 0 ∧ g.frog_row = RIVERBANK_ROW then
    { g with
      riverbank_status := (g.riverbank_status ||| (1 <<< g.frog_column.toNat)) % 65536 }
  else g

/-- The function `move_frog_forward`. -/
def move_frog_forward (g : Game) : Game :=
  let g := { g with
    frog_dead := will_frog_die_at_position g (toInt8 (g.frog_row + 1)) g.frog_column }
  let g := { g with frog_row := toInt8 (g.frog_row + 1) }
  let g := if g.frog_dead = 0 then add_to_score g 1 else g
  mark_riverbank g

/-- The function `move_frog_backward`. -/
def move_frog_backward (g : Game) : Game :=
  let g := { g with
    frog_dead := will_frog_die_at_position g (toInt8 (g.frog_row - 1)) g.frog_column }
  let g := { g with frog_row := toInt8 (g.frog_row - 1) }
  mark_riverbank g

/-- The function `move_frog_to_left`. -/
def move_frog_to_left (g : Game) : Game :=
  let g := { g with
    frog_dead := will_frog_die_at_position g g.frog_row (toInt8 (g.frog_column - 1)) }
  let g := { g with frog_column := toInt8 (g.frog_column - 1) }
  mark_riverbank g

/-- The function `move_frog_to_right`. -/
def move_frog_to_right (g : Game) : Game :=
  let g := { g with
    frog_dead := will_frog_die_at_position g g.frog_row (toInt8 (g.frog_column + 1)) }
  let g := { g with frog_column := toInt8 (g.frog_column + 1) }
  mark_riverbank g

/-- The function `get_frog_row`, which returns a `uint8_t`. -/
def get_frog_row (g : Game) : Nat := toUInt8 g.frog_row

/-- The function `get_frog_column`, which returns a `uint8_t`. -/
def get_frog_column (g : Game) : Nat := toUInt8 g.frog_column

/-- The function `is_riverbank_full`. -/
def is_riverbank_full (g : Game) : Nat :=
  if g.riverbank_status = 0xFFFF then 1 else 0

/-- The function `frog_has_reached_riverbank`. -/
def frog_has_reached_riverbank (g : Game) : Nat :=
  if g.frog_row = RIVERBANK_ROW then 1 else 0

/-- The function `is_frog_dead`. -/
def is_frog_dead (g : Game) : Nat := g.frog_dead

/-- The function `kill_frog`. -/
def kill_frog (g : Game) : Game := { g with frog_dead := 1 }

/-- The function `scroll_vehicle_lane`; `lane` is 0, 1 or 2 and `direction` an
`int8_t`. -/
def scroll_vehicle_lane (g : Game) (lane : Fin 3) (direction : Int) : Game :=
  let frog_is_in_this_row : Bool := g.frog_row = (lane.val : Int) + FIRST_VEHICLE_ROW
  let p := toInt8 (g.lane_position lane - direction)
  let p : Int :=
    if p < 0 then (LANE_DATA_WIDTH : Int) - 1
    else if p ≥ (LANE_DATA_WIDTH : Int) then 0
    else p
  let g := { g with lane_position := Function.update g.lane_position lane p }
  if frog_is_in_this_row then
    { g with frog_dead := will_frog_die_at_position g g.frog_row g.frog_column }
  else g

/-- The function `scroll_river_channel`; `channel` is 0 or 1 and `direction` an
`int8_t`. -/
def scroll_river_channel (g : Game) (channel : Fin 2) (direction : Int) : Game :=
  let frog_is_in_this_row : Bool := g.frog_row = (channel.val : Int) + FIRST_RIVER_ROW
  let g :=
    if frog_is_in_this_row then
      if direction = 1 ∧ g.frog_column = 15 then { g with frog_dead := 1 }
      else if direction = -1 ∧ g.frog_column = 0 then { g with frog_dead := 1 }
      else { g with frog_column := toInt8 (g.frog_column + direction) }
    else g
  let p := toInt8 (g.log_position channel - direction)
  let p : Int :=
    if p < 0 then (LOG_DATA_WIDTH : Int) - 1
    else if p ≥ (LOG_DATA_WIDTH : Int) then 0
    else p
  { g with log_position := Function.update g.log_position channel p }

/-! ## Drawing the rows -/

/-- The pixel colours that `game.c` uses for the lanes and the river.  They are
defined in `pixel_colour.h`, which is not among the sources, so the drawing
functions take them as a parameter; a colour is a `uint8_t`. -/
structure PixelColours where
  COLOUR_BLACK : Nat
  COLOUR_RED : Nat
  COLOUR_YELLOW : Nat
  COLOUR_ORANGE : Nat

def COLOUR_WATER (p : PixelColours) : Nat := p.COLOUR_BLACK

def COLOUR_ROAD (p : PixelColours) : Nat := p.COLOUR_BLACK

def COLOUR_LOGS (p : PixelColours) : Nat := p.COLOUR_ORANGE

/-- The colour of the vehicles, by lane. -/
def vehicle_colours (p : PixelColours) : Fin 3 → Nat
  | 0 => p.COLOUR_RED
  | 1 => p.COLOUR_YELLOW
  | 2 => p.COLOUR_RED

/-- The loop of `redraw_traffic_lane`: the cells still to fill, `n` of them,
from the `uint8_t` index `bit_position`, which is incremented after each cell
and set to 0 when it reaches the width. -/
def traffic_lane_cells (p : PixelColours) (lane : Fin 3) : Nat → Nat → List Nat
  | 0, _ => []
  | n + 1, bit_position =>
    (if (lane_data lane >>> bit_position) &&& 1 ≠ 0 then vehicle_colours p lane
      else COLOUR_ROAD p)
      :: traffic_lane_cells p lane n
          (if (bit_position + 1) % 256 ≥ LANE_DATA_WIDTH then 0
            else (bit_position + 1) % 256)

/-- The function `redraw_traffic_lane`: the 16 cells `row_display_data` that it
hands to the LED matrix for row `lane + 1`. -/
def redraw_traffic_lane (p : PixelColours) (g : Game) (lane : Fin 3) : List Nat :=
  traffic_lane_cells p lane 16 (toUInt8 (g.lane_position lane))

/-- The loop of `redraw_river_channel`. -/
def river_channel_cells (p : PixelColours) (channel : Fin 2) : Nat → Nat → List Nat
  | 0, _ => []
  | n + 1, bit_position =>
    (if (log_data channel >>> bit_position) &&& 1 ≠ 0 then COLOUR_LOGS p
      else COLOUR_WATER p)
      :: river_channel_cells p channel n
          (if (bit_position + 1) % 256 ≥ LOG_DATA_WIDTH then 0
            else (bit_position + 1) % 256)

/-- The function `redraw_river_channel`: the 16 cells that it hands to the LED
matrix for row `channel + 5`. -/
def redraw_river_channel (p : PixelColours) (g : Game) (channel : Fin 2) : List Nat :=
  river_channel_cells p channel 16 (toUInt8 (g.log_position channel))

/-- A choice of colours for the examples; any choice in which a vehicle differs
from the road and a log from the water would do. -/
def sample_colours : PixelColours :=
  { COLOUR_BLACK := 0x00, COLOUR_RED := 0x0F, COLOUR_YELLOW := 0xFF, COLOUR_ORANGE := 0x3C }

/-! ## Sequences of public operations -/

/-- The public operations of `game.h` that change the state, other than
`initialise_game`. -/
inductive Op where
  | forward
  | backward
  | left
  | right
  | restart
  | kill
  | lane (l : Fin 3) (direction : Int)
  | channel (c : Fin 2) (direction : Int)

/-- One public operation applied to a state. -/
def Op.apply (g : Game) : Op → Game
  | .forward => move_frog_forward g
  | .backward => move_frog_backward g
  | .left => move_frog_to_left g
  | .right => move_frog_to_right g
  | .restart => put_frog_in_start_position g
  | .kill => kill_frog g
  | .lane l d => scroll_vehicle_lane g l d
  | .channel c d => scroll_river_channel g c d

/-- A sequence of public operations applied from left to right. -/
def run (g : Game) (ops : List Op) : Game := ops.foldl Op.apply g

/-- A state of a new game with every variable zero, as C initialises statics;
`initialise_game` is applied to it at the start of a game. -/
def zeroGame : Game :=
  { frog_row := 0, frog_column := 0, frog_dead := 0
    lane_position := fun _ => 0, log_position := fun _ => 0
    riverbank := 0, riverbank_status := 0, score := 0 }

/-- A play from the start cell `(0, 7)` that brings a live frog to `(6, 4)`, on
a log of channel 1, with the scroller offsets of a new game. -/
def path_to_river : List Op :=
  [.left, .left, .forward, .forward, .forward, .forward, .forward, .left, .forward]

/-- A play that brings the frog to `(6, 5)`, below the hole of column 5: onto
the log at `(6, 4)`, then carried one column to the right by the log. -/
def path_to_hole : List Op := path_to_river ++ [.channel 1 1]

/-- A play that brings the frog to `(6, 2)`, below the edge of column 2. -/
def path_to_edge : List Op := path_to_river ++ [.left, .left]

/-- A play that leaves a dead frog at `(7, 0)`, on the edge next to the hole of
column 1. -/
def path_to_corner : List Op :=
  path_to_river ++ [.left, .left, .left, .left, .forward]

/-- A play from the start cell that brings a live frog to `(5, 5)`, on a log of
channel 0. -/
def path_to_log : List Op :=
  [.left, .left, .forward, .forward, .forward, .forward, .forward]

/-- A play that carries a live frog on a log of channel 0 to the left edge,
`(5, 0)`. -/
def path_to_left_edge : List Op :=
  path_to_log ++ List.replicate 5 (.channel 0 (-1))

/-- A play that puts a live frog on lane 0 at `(1, 6)` and scrolls the lane
once. -/
def path_to_lane : List Op := [.left, .forward, .lane 0 1]

/-- The offsets of the scrollers are bit positions of their patterns: every
`lane_position` in [0,64) and every `log_position` in [0,32). -/
def OffsetsInRange (g : Game) : Prop :=
  (∀ l : Fin 3, 0 ≤ g.lane_position l ∧ g.lane_position l < 64)
    ∧ (∀ ch : Fin 2, 0 ≤ g.log_position ch ∧ g.log_position ch < 32)

instance (g : Game) : Decidable (OffsetsInRange g) := by
  unfold OffsetsInRange
  infer_instance

/-- What a move that ends with a live frog at `(7, column)` does to the
riverbank: the closing step of the moves, run with such a frog. -/
def fill_hole (g : Game) (column : Nat) : Game :=
  mark_riverbank { g with frog_dead := 0, frog_row := RIVERBANK_ROW, frog_column := column }

/-- Eight moves to the left from the start cell `(0, 7)`: the last one leaves
the game field. -/
def path_off_left : List Op := List.replicate 8 .left

/-- The directions the scrollers are documented for: -1, 0 or +1. -/
def Op.unit_direction : Op → Prop
  | .lane _ d => d = -1 ∨ d = 0 ∨ d = 1
  | .channel _ d => d = -1 ∨ d = 0 ∨ d = 1
  | _ => True

instance (op : Op) : Decidable op.unit_direction := by
  cases op <;> unfold Op.unit_direction <;> infer_instance

/-- A live frog is on the game field; below row 7 it is on a cell that the
oracle calls safe, and in row 7 it is in a hole marked as filled. -/
def LiveFrogSafe (g : Game) : Prop :=
  g.frog_dead = 0 →
    (0 ≤ g.frog_row ∧ g.frog_row ≤ 7) ∧ (0 ≤ g.frog_column ∧ g.frog_column ≤ 15)
      ∧ (g.frog_row ≠ 7 → will_frog_die_at_position g g.frog_row g.frog_column = 0)
      ∧ (g.frog_row = 7 → g.riverbank_status.testBit g.frog_column.toNat = true)

instance (g : Game) : Decidable (LiveFrogSafe g) := by
  unfold LiveFrogSafe
  infer_instance

/-- The operations that are moves of the frog. -/
def Op.is_move : Op → Bool
  | .forward => true
  | .backward => true
  | .left => true
  | .right => true
  | _ => false

/-- The frog is alive in row 7; after a move, the move was a landing. -/
def landed (g : Game) : Bool := decide (g.frog_dead = 0 ∧ g.frog_row = RIVERBANK_ROW)

/-- The number of landings along a sequence of operations from `g`: the moves
after which the frog is alive in row 7. -/
def landings (g : Game) : List Op → Nat
  | [] => 0
  | op :: ops =>
    (if op.is_move && landed (op.apply g) then 1 else 0) + landings (op.apply g) ops

/-- The number of the holes of the edge pattern, columns 1, 5, 9 and 13, whose
bit of `riverbank_status` is set. -/
def holes_filled (g : Game) : Nat :=
  (g.riverbank_status.testBit 1).toNat + (g.riverbank_status.testBit 5).toNat
    + (g.riverbank_status.testBit 9).toNat + (g.riverbank_status.testBit 13).toNat

/-- A play of four frogs, one into each hole; the frogs are driven straight
through the traffic and the river, and each lands alive. -/
def four_landings : List Op :=
  (Op.restart :: List.replicate 6 Op.left ++ List.replicate 7 Op.forward)
    ++ (Op.restart :: List.replicate 2 Op.left ++ List.replicate 7 Op.forward)
    ++ (Op.restart :: List.replicate 2 Op.right ++ List.replicate 7 Op.forward)
    ++ (Op.restart :: List.replicate 6 Op.right ++ List.replicate 7 Op.forward)

/-- The status is a 16-bit value with the bits of the edge pattern set. -/
def EdgesSet (g : Game) : Prop :=
  g.riverbank_status < 65536
    ∧ ∀ k, RIVERBANK.testBit k = true → g.riverbank_status.testBit k = true

/-! ## The levels (`project.c`, `level.c`, `live.c`) -/

/-- The game state together with `level` of `level.c` and `lives` of `live.c`,
both `uint8_t`. -/
structure Project where
  game : Game
  level : Nat
  lives : Nat

/-- The variable `max_lives` of `live.c`, which is never written. -/
def max_lives : Nat := 4

/-- The function `add_level` of `level.c`. -/
def add_level (p : Project) : Project := { p with level := (p.level + 1) % 256 }

/-- The function `get_level` of `level.c`. -/
def get_level (p : Project) : Nat := p.level

/-- The function `add_lives` of `live.c`. -/
def add_lives (p : Project) : Project :=
  if p.lives < max_lives then { p with lives := (p.lives + 1) % 256 } else p

/-- The loop of `next_level` that scrolls the level banner,
`while(scroll_display()) { if(button_pushed() != NO_BUTTON_PUSHED)
{ initialise_game(); break; } _delay_ms(150); }`.  The list has one entry for
each time `scroll_display()` returned nonzero, telling whether `button_pushed()`
then returned a button; at its end `scroll_display()` returned 0. -/
def level_banner (p : Project) : List Bool → Project
  | [] => p
  | pushed :: rest =>
    if pushed then { p with game := initialise_game p.game } else level_banner p rest

/-- The function `next_level` of `project.c`, given the button input during
the banner.  The countdown that `count_clear` resets and the output to the
terminal and the LED matrix are not part of the state. -/
def next_level (p : Project) (banner : List Bool) : Project :=
  let p := add_level p
  let p := if get_level p > 1 then add_lives p else p
  level_banner p banner

/-- The state at the end of a level that was won: level 1, three lives, and the
four holes filled by `four_landings`. -/
def level_won : Project :=
  { game := run (initialise_game zeroGame) four_landings, level := 1, lives := 3 }

/-! ## The joystick (`joystick.c`) -/

/-- The module-level variables of `joystick.c`: the two ADC readings
(`uint16_t`), the direction reported last (`uint8_t`) and the time of that
report in milliseconds (`uint32_t`). -/
structure Joystick where
  x_value : Nat
  y_value : Nat
  old_direction : Nat
  old_time : Nat

/-- The function `joystick_direction`, with its inputs as arguments: `x` and
`y` are the values that `adc_values` reads from the ADC, `current_time` is what
`get_current_time()` returns in the test of the repeat delay and `store_time`
what it returns when the report is recorded.  `new_direction` is a `uint8_t`,
so the -1 of a centred stick is stored as 255, the test `new_direction >= 0`
always holds, and the value is narrowed to `int8_t` when it is returned;
`old_time + 250` is a sum of `uint32_t`. -/
def joystick_direction (j : Joystick) (x y current_time store_time : Nat) :
    Int × Joystick :=
  let j := { j with x_value := x, y_value := y }
  let new_direction : Nat :=
    if j.x_value < 250 then 3
    else if j.y_value < 250 then 2
    else if j.x_value > 760 then 1
    else if j.y_value > 760 then 0
    else toUInt8 (-1)
  if new_direction ≥ 0 then
    if j.old_direction = new_direction then
      if current_time < (j.old_time + 250) % 4294967296 then (-1, j)
      else
        (toInt8 new_direction,
          { j with old_direction := new_direction, old_time := store_time })
    else
      (toInt8 new_direction,
        { j with old_direction := new_direction, old_time := store_time })
  else (-1, j)

/-- The direction of a stick that is not centred, in the order of the tests:
3 for `x < 250`, else 2 for `y < 250`, else 1 for `x > 760`, else 0 (for
`y > 760`). -/
def stick_direction (x y : Nat) : Int :=
  if x < 250 then 3 else if y < 250 then 2 else if x > 760 then 1 else 0

/-- The stick is centred: both readings are in [250, 760]. -/
def stick_centred (x y : Nat) : Prop := 250 ≤ x ∧ x ≤ 760 ∧ 250 ≤ y ∧ y ≤ 760

instance (x y : Nat) : Decidable (stick_centred x y) := by
  unfold stick_centred
  infer_instance

/-! ## Theorems -/

/-! ### Bits of a shifted pattern -/

lemma shiftRight_and_one_eq_one_iff (x k : Nat) :
    (x >>> k) &&& 1 = 1 ↔ x.testBit k = true := by
  rw [Nat.testBit_to_div_mod, Nat.and_one_is_mod, Nat.shiftRight_eq_div_pow]
  simp

lemma shiftRight_and_one_eq_zero_iff (x k : Nat) :
    (x >>> k) &&& 1 = 0 ↔ x.testBit k = false := by
  rw [Nat.testBit_to_div_mod, Nat.and_one_is_mod, Nat.shiftRight_eq_div_pow]
  simp

lemma shiftRight_and_one_le (x k : Nat) : (x >>> k) &&& 1 ≤ 1 := by
  rw [Nat.and_one_is_mod]
  omega

/-- The sampling index of the oracle: for an offset in `[0, w)` and a column in
`[0, 15]`, narrowing `pos + column` to `uint8_t` and subtracting the width once
when it is reached gives `(pos + column) mod w`; here for `w` = 64 and 32. -/
lemma sample_index (w : Nat) (hw : w = 64 ∨ w = 32) (pos c : Int)
    (hp : 0 ≤ pos ∧ pos < w) (hc : 0 ≤ c ∧ c ≤ 15) :
    (if toUInt8 (pos + c) ≥ w then toUInt8 (pos + c) - w else toUInt8 (pos + c))
      = ((pos + c) % w).toNat := by
  unfold toUInt8
  rcases hw with rfl | rfl <;> split_ifs <;> omega

/-! ### The collision oracle, row by row -/

lemma oracle_off_field (g : Game) (row column : Int)
    (h : column < 0 ∨ column > 15 ∨ row < 0 ∨ row > 7) :
    will_frog_die_at_position g row column = 1 := by
  unfold will_frog_die_at_position
  split_ifs <;> first | rfl | omega

lemma oracle_lane_row (g : Game) (l : Fin 3) (r c : Int)
    (hr : r = (l.val : Int) + 1) (hc : 0 ≤ c ∧ c ≤ 15)
    (hp : 0 ≤ g.lane_position l ∧ g.lane_position l < 64) :
    will_frog_die_at_position g r c = 1 ↔
      (lane_data l).testBit ((g.lane_position l + c) % 64).toNat = true := by
  have hl : l.val < 3 := l.isLt
  have hfin : (⟨(r - 1).toNat, by omega⟩ : Fin 3) = l := by
    apply Fin.ext
    simp only
    omega
  unfold will_frog_die_at_position
  rw [if_neg (by omega), if_neg (by omega), dif_pos (by omega)]
  simp only [hfin, LANE_DATA_WIDTH]
  rw [sample_index 64 (Or.inl rfl) _ _ (by exact_mod_cast hp) hc]
  exact shiftRight_and_one_eq_one_iff _ _

lemma oracle_river_row (g : Game) (ch : Fin 2) (r c : Int)
    (hr : r = (ch.val : Int) + 5) (hc : 0 ≤ c ∧ c ≤ 15)
    (hp : 0 ≤ g.log_position ch ∧ g.log_position ch < 32) :
    will_frog_die_at_position g r c = 1 ↔
      (log_data ch).testBit ((g.log_position ch + c) % 32).toNat = false := by
  have hl : ch.val < 2 := ch.isLt
  have hfin : (⟨(r - 5).toNat, by omega⟩ : Fin 2) = ch := by
    apply Fin.ext
    simp only
    omega
  unfold will_frog_die_at_position
  rw [if_neg (by omega), if_neg (by omega), dif_neg (by omega), dif_pos (by omega)]
  simp only [hfin, LOG_DATA_WIDTH]
  rw [sample_index 32 (Or.inr rfl) _ _ (by exact_mod_cast hp) hc]
  simp only [Nat.cast_ofNat]
  split_ifs with h
  · exact ⟨fun _ => (shiftRight_and_one_eq_zero_iff _ _).1 h, fun _ => rfl⟩
  · exact ⟨fun h1 => absurd h1 (by decide),
      fun h1 => absurd ((shiftRight_and_one_eq_zero_iff _ _).2 h1) h⟩

lemma oracle_riverbank_row (g : Game) (c : Int) (hc : 0 ≤ c ∧ c ≤ 15) :
    will_frog_die_at_position g 7 c = (g.riverbank_status >>> c.toNat) &&& 1 := by
  unfold will_frog_die_at_position
  rw [if_neg (by omega), if_neg (by omega), dif_neg (by omega), dif_neg (by omega),
    if_pos rfl]

lemma oracle_riverbank_row_iff (g : Game) (c : Int) (hc : 0 ≤ c ∧ c ≤ 15) :
    will_frog_die_at_position g 7 c = 1 ↔ g.riverbank_status.testBit c.toNat = true := by
  rw [oracle_riverbank_row g c hc]
  exact shiftRight_and_one_eq_one_iff _ _

lemma oracle_riverbank_row_free (g : Game) (c : Int) (hc : 0 ≤ c ∧ c ≤ 15)
    (h : g.riverbank_status.testBit c.toNat = false) :
    will_frog_die_at_position g 7 c = 0 := by
  rw [oracle_riverbank_row g c hc]
  exact (shiftRight_and_one_eq_zero_iff _ _).2 h

/-! ### Narrowing -/

lemma toInt8_eq_self (x : Int) (h : -128 ≤ x ∧ x ≤ 127) : toInt8 x = x := by
  unfold toInt8
  omega

/-! ### The closing step of the moves -/

@[simp] lemma mark_riverbank_frog_dead (g : Game) :
    (mark_riverbank g).frog_dead = g.frog_dead := by
  unfold mark_riverbank
  split_ifs <;> rfl

@[simp] lemma mark_riverbank_frog_row (g : Game) :
    (mark_riverbank g).frog_row = g.frog_row := by
  unfold mark_riverbank
  split_ifs <;> rfl

@[simp] lemma mark_riverbank_frog_column (g : Game) :
    (mark_riverbank g).frog_column = g.frog_column := by
  unfold mark_riverbank
  split_ifs <;> rfl

lemma mark_riverbank_dead (g : Game) (h : g.frog_dead ≠ 0) : mark_riverbank g = g := by
  unfold mark_riverbank
  rw [if_neg (fun h1 => h h1.1)]

lemma testBit_or_mod (s x k : Nat) (hk : k < 16) (h : s.testBit k = true) :
    ((s ||| x) % 65536).testBit k = true := by
  have e : (65536 : Nat) = 2 ^ 16 := by norm_num
  rw [e, Nat.testBit_mod_two_pow, Nat.testBit_or, h]
  simp [hk]

lemma mark_riverbank_status_bit (g : Game) (k : Nat) (hk : k < 16)
    (h : g.riverbank_status.testBit k = true) :
    (mark_riverbank g).riverbank_status.testBit k = true := by
  unfold mark_riverbank
  split_ifs
  · exact testBit_or_mod _ _ k hk h
  · exact h

/-- No public operation other than `initialise_game` clears a bit of
`riverbank_status`. -/
lemma Op.apply_status_bit (g : Game) (op : Op) (k : Nat) (hk : k < 16)
    (h : g.riverbank_status.testBit k = true) :
    (op.apply g).riverbank_status.testBit k = true := by
  cases op with
  | forward =>
    simp only [Op.apply, move_frog_forward]
    apply mark_riverbank_status_bit _ k hk
    split_ifs <;> exact h
  | backward => exact mark_riverbank_status_bit _ k hk h
  | left => exact mark_riverbank_status_bit _ k hk h
  | right => exact mark_riverbank_status_bit _ k hk h
  | restart => exact h
  | kill => exact h
  | lane l d =>
    simp only [Op.apply, scroll_vehicle_lane]
    split_ifs <;> exact h
  | channel c d =>
    simp only [Op.apply, scroll_river_channel]
    split_ifs <;> exact h

lemma run_status_bit (ops : List Op) (g : Game) (k : Nat) (hk : k < 16)
    (h : g.riverbank_status.testBit k = true) :
    (run g ops).riverbank_status.testBit k = true := by
  induction ops generalizing g with
  | nil => exact h
  | cons op ops ih => exact ih (op.apply g) (Op.apply_status_bit g op k hk h)

/-! ### What each move does to the frog -/

lemma move_frog_forward_frog (g : Game) :
    (move_frog_forward g).frog_dead
        = will_frog_die_at_position g (toInt8 (g.frog_row + 1)) g.frog_column
      ∧ (move_frog_forward g).frog_row = toInt8 (g.frog_row + 1)
      ∧ (move_frog_forward g).frog_column = g.frog_column := by
  simp only [move_frog_forward, mark_riverbank_frog_dead, mark_riverbank_frog_row,
    mark_riverbank_frog_column]
  split_ifs <;> exact ⟨rfl, rfl, rfl⟩

lemma move_frog_backward_frog (g : Game) :
    (move_frog_backward g).frog_dead
        = will_frog_die_at_position g (toInt8 (g.frog_row - 1)) g.frog_column
      ∧ (move_frog_backward g).frog_row = toInt8 (g.frog_row - 1)
      ∧ (move_frog_backward g).frog_column = g.frog_column := by
  simp [move_frog_backward]

lemma move_frog_to_left_frog (g : Game) :
    (move_frog_to_left g).frog_dead
        = will_frog_die_at_position g g.frog_row (toInt8 (g.frog_column - 1))
      ∧ (move_frog_to_left g).frog_row = g.frog_row
      ∧ (move_frog_to_left g).frog_column = toInt8 (g.frog_column - 1) := by
  simp [move_frog_to_left]

lemma move_frog_to_right_frog (g : Game) :
    (move_frog_to_right g).frog_dead
        = will_frog_die_at_position g g.frog_row (toInt8 (g.frog_column + 1))
      ∧ (move_frog_to_right g).frog_row = g.frog_row
      ∧ (move_frog_to_right g).frog_column = toInt8 (g.frog_column + 1) := by
  simp [move_frog_to_right]

/-- The riverbank status after a forward move, by the verdict of the oracle. -/
lemma move_frog_forward_status (g : Game) :
    (move_frog_forward g).riverbank_status =
      if will_frog_die_at_position g (toInt8 (g.frog_row + 1)) g.frog_column = 0
          ∧ toInt8 (g.frog_row + 1) = 7 then
        (g.riverbank_status ||| (1 <<< g.frog_column.toNat)) % 65536
      else g.riverbank_status := by
  simp only [move_frog_forward, mark_riverbank, RIVERBANK_ROW]
  split_ifs <;> simp_all [add_to_score]

lemma or_bit_lt (s k : Nat) (hs : s < 65536) (hk : k < 16) :
    (s ||| (1 <<< k)) % 65536 = s ||| (1 <<< k) := by
  apply Nat.mod_eq_of_lt
  have e : (65536 : Nat) = 2 ^ 16 := by norm_num
  rw [e] at hs ⊢
  apply Nat.or_lt_two_pow hs
  rw [Nat.one_shiftLeft]
  exact Nat.pow_lt_pow_right (by norm_num) hk

/-! ### The riverbank status after a move -/

lemma oracle_zero_column (g : Game) (row column : Int)
    (h : will_frog_die_at_position g row column = 0) : 0 ≤ column ∧ column ≤ 15 := by
  by_contra hc
  have h1 : will_frog_die_at_position g row column = 1 :=
    oracle_off_field g row column (by omega)
  omega

lemma mark_riverbank_status (g g1 : Game) (hs : g.riverbank_status < 65536)
    (h1 : g1.riverbank_status = g.riverbank_status)
    (hcol : g1.frog_dead = 0 → 0 ≤ g1.frog_column ∧ g1.frog_column ≤ 15) :
    (mark_riverbank g1).riverbank_status =
      if (mark_riverbank g1).frog_dead = 0 ∧ (mark_riverbank g1).frog_row = 7 then
        g.riverbank_status ||| (1 <<< (mark_riverbank g1).frog_column.toNat)
      else g.riverbank_status := by
  simp only [mark_riverbank_frog_dead, mark_riverbank_frog_row, mark_riverbank_frog_column]
  unfold mark_riverbank
  simp only [RIVERBANK_ROW]
  split_ifs with h
  · have hc := hcol h.1
    simp only [h1]
    exact or_bit_lt _ _ hs (by omega)
  · exact h1

lemma move_frog_forward_marks (g : Game) (hs : g.riverbank_status < 65536) :
    (move_frog_forward g).riverbank_status =
      if (move_frog_forward g).frog_dead = 0 ∧ (move_frog_forward g).frog_row = 7 then
        g.riverbank_status ||| (1 <<< (move_frog_forward g).frog_column.toNat)
      else g.riverbank_status := by
  unfold move_frog_forward
  simp only
  by_cases hv : will_frog_die_at_position g (toInt8 (g.frog_row + 1)) g.frog_column = 0
  · simp only [if_pos hv]
    exact mark_riverbank_status g _ hs rfl (fun hd => oracle_zero_column g _ _ hd)
  · simp only [if_neg hv]
    exact mark_riverbank_status g _ hs rfl (fun hd => oracle_zero_column g _ _ hd)

lemma move_frog_backward_marks (g : Game) (hs : g.riverbank_status < 65536) :
    (move_frog_backward g).riverbank_status =
      if (move_frog_backward g).frog_dead = 0 ∧ (move_frog_backward g).frog_row = 7 then
        g.riverbank_status ||| (1 <<< (move_frog_backward g).frog_column.toNat)
      else g.riverbank_status :=
  mark_riverbank_status g _ hs rfl (fun h => oracle_zero_column g _ _ h)

lemma move_frog_to_left_marks (g : Game) (hs : g.riverbank_status < 65536) :
    (move_frog_to_left g).riverbank_status =
      if (move_frog_to_left g).frog_dead = 0 ∧ (move_frog_to_left g).frog_row = 7 then
        g.riverbank_status ||| (1 <<< (move_frog_to_left g).frog_column.toNat)
      else g.riverbank_status :=
  mark_riverbank_status g _ hs rfl (fun h => oracle_zero_column g _ _ h)

lemma move_frog_to_right_marks (g : Game) (hs : g.riverbank_status < 65536) :
    (move_frog_to_right g).riverbank_status =
      if (move_frog_to_right g).frog_dead = 0 ∧ (move_frog_to_right g).frog_row = 7 then
        g.riverbank_status ||| (1 <<< (move_frog_to_right g).frog_column.toNat)
      else g.riverbank_status :=
  mark_riverbank_status g _ hs rfl (fun h => oracle_zero_column g _ _ h)

/-! ### The scrollers -/

/-- The wrapped offset that both scrollers store: `p` is the narrowed
`pos - direction`, `w` the width of the pattern. -/
lemma wrap_in_range (p w : Int) (hw : 0 < w) :
    0 ≤ (if p < 0 then w - 1 else if p ≥ w then 0 else p)
      ∧ (if p < 0 then w - 1 else if p ≥ w then 0 else p) < w := by
  split_ifs <;> omega

lemma advance_offset (w : Int) (hw : w = 64 ∨ w = 32) (pos d : Int)
    (hp : 0 ≤ pos ∧ pos < w) (hd : -1 ≤ d ∧ d ≤ 1) :
    (if toInt8 (pos - d) < 0 then w - 1
      else if toInt8 (pos - d) ≥ w then 0 else toInt8 (pos - d)) = (pos - d) % w := by
  rw [toInt8_eq_self (pos - d) (by rcases hw with rfl | rfl <;> omega)]
  rcases hw with rfl | rfl <;> split_ifs <;> omega

lemma scroll_vehicle_lane_lane_position (g : Game) (l : Fin 3) (d : Int) :
    (scroll_vehicle_lane g l d).lane_position =
      Function.update g.lane_position l
        (if toInt8 (g.lane_position l - d) < 0 then 64 - 1
          else if toInt8 (g.lane_position l - d) ≥ 64 then 0
          else toInt8 (g.lane_position l - d)) := by
  simp only [scroll_vehicle_lane, LANE_DATA_WIDTH, Nat.cast_ofNat]
  split_ifs <;> rfl

lemma scroll_vehicle_lane_frog (g : Game) (l : Fin 3) (d : Int) :
    (scroll_vehicle_lane g l d).frog_row = g.frog_row
      ∧ (scroll_vehicle_lane g l d).frog_column = g.frog_column := by
  simp only [scroll_vehicle_lane]
  split_ifs <;> exact ⟨rfl, rfl⟩

lemma scroll_vehicle_lane_frame (g : Game) (l : Fin 3) (d : Int) :
    (scroll_vehicle_lane g l d).log_position = g.log_position
      ∧ (scroll_vehicle_lane g l d).riverbank_status = g.riverbank_status := by
  simp only [scroll_vehicle_lane]
  split_ifs <;> exact ⟨rfl, rfl⟩

lemma scroll_vehicle_lane_frog_dead (g : Game) (l : Fin 3) (d : Int)
    (hrow : g.frog_row = (l.val : Int) + 1) :
    (scroll_vehicle_lane g l d).frog_dead =
      will_frog_die_at_position (scroll_vehicle_lane g l d) g.frog_row g.frog_column := by
  simp only [scroll_vehicle_lane, FIRST_VEHICLE_ROW, hrow, decide_True, if_true]
  rfl

lemma scroll_river_channel_log_position (g : Game) (ch : Fin 2) (d : Int) :
    (scroll_river_channel g ch d).log_position =
      Function.update g.log_position ch
        (if toInt8 (g.log_position ch - d) < 0 then 32 - 1
          else if toInt8 (g.log_position ch - d) ≥ 32 then 0
          else toInt8 (g.log_position ch - d)) := by
  simp only [scroll_river_channel, LOG_DATA_WIDTH, Nat.cast_ofNat]
  split_ifs <;> rfl

lemma scroll_river_channel_frame (g : Game) (ch : Fin 2) (d : Int) :
    (scroll_river_channel g ch d).lane_position = g.lane_position
      ∧ (scroll_river_channel g ch d).riverbank_status = g.riverbank_status
      ∧ (scroll_river_channel g ch d).frog_row = g.frog_row := by
  simp only [scroll_river_channel]
  split_ifs <;> exact ⟨rfl, rfl, rfl⟩

/-- A frog on the row of the channel that is not at the edge it is pushed to is
carried with the log and nothing else of it changes. -/
lemma scroll_river_channel_carried (g : Game) (ch : Fin 2) (d : Int)
    (hrow : g.frog_row = (ch.val : Int) + 5)
    (h1 : ¬ (d = 1 ∧ g.frog_column = 15)) (h2 : ¬ (d = -1 ∧ g.frog_column = 0)) :
    (scroll_river_channel g ch d).frog_column = toInt8 (g.frog_column + d)
      ∧ (scroll_river_channel g ch d).frog_dead = g.frog_dead := by
  simp [scroll_river_channel, FIRST_RIVER_ROW, hrow, if_neg h1, if_neg h2]

/-- A frog on the row of the channel at the edge it is pushed to dies where it
is. -/
lemma scroll_river_channel_edge (g : Game) (ch : Fin 2) (d : Int)
    (hrow : g.frog_row = (ch.val : Int) + 5)
    (h : (d = 1 ∧ g.frog_column = 15) ∨ (d = -1 ∧ g.frog_column = 0)) :
    (scroll_river_channel g ch d).frog_column = g.frog_column
      ∧ (scroll_river_channel g ch d).frog_dead = 1 := by
  simp only [scroll_river_channel, FIRST_RIVER_ROW, hrow, decide_True, if_true]
  rcases h with h | h
  · rw [if_pos h]
    exact ⟨rfl, rfl⟩
  · have h1 : ¬ (d = 1 ∧ g.frog_column = 15) := by omega
    rw [if_neg h1, if_pos h]
    exact ⟨rfl, rfl⟩

lemma oracle_le_one (g : Game) (row column : Int) :
    will_frog_die_at_position g row column ≤ 1 := by
  unfold will_frog_die_at_position
  dsimp only
  split_ifs <;> first | exact shiftRight_and_one_le _ _ | omega

lemma oracle_river_row_val (g : Game) (ch : Fin 2) (r c : Int)
    (hr : r = (ch.val : Int) + 5) (hc : 0 ≤ c ∧ c ≤ 15)
    (hp : 0 ≤ g.log_position ch ∧ g.log_position ch < 32) :
    will_frog_die_at_position g r c =
      if (log_data ch).testBit ((g.log_position ch + c) % 32).toNat = true then 0 else 1 := by
  have hiff := oracle_river_row g ch r c hr hc hp
  have hle := oracle_le_one g r c
  split_ifs with h
  · have : ¬ will_frog_die_at_position g r c = 1 := fun h1 => by
      rw [hiff.1 h1] at h
      exact absurd h (by decide)
    omega
  · exact hiff.2 (by simpa using h)

lemma scroll_river_channel_offset (g : Game) (ch : Fin 2) (d : Int)
    (hp : 0 ≤ g.log_position ch ∧ g.log_position ch < 32) (hd : -1 ≤ d ∧ d ≤ 1) :
    (scroll_river_channel g ch d).log_position ch = (g.log_position ch - d) % 32 := by
  rw [scroll_river_channel_log_position, Function.update_same]
  exact advance_offset 32 (Or.inr rfl) _ d hp hd

lemma scroll_vehicle_lane_offset (g : Game) (l : Fin 3) (d : Int)
    (hp : 0 ≤ g.lane_position l ∧ g.lane_position l < 64) (hd : -1 ≤ d ∧ d ≤ 1) :
    (scroll_vehicle_lane g l d).lane_position l = (g.lane_position l - d) % 64 := by
  rw [scroll_vehicle_lane_lane_position, Function.update_same]
  exact advance_offset 64 (Or.inl rfl) _ d hp hd

/-- A log carries the frog on the same pattern bit: the verdict at the shifted
column after the scroll is the verdict at the old column before it. -/
lemma river_carry_same_verdict (g : Game) (ch : Fin 2) (c d : Int)
    (hd : -1 ≤ d ∧ d ≤ 1) (hc : 0 ≤ c ∧ c ≤ 15) (hcd : 0 ≤ c + d ∧ c + d ≤ 15)
    (hp : 0 ≤ g.log_position ch ∧ g.log_position ch < 32) :
    will_frog_die_at_position (scroll_river_channel g ch d) ((ch.val : Int) + 5) (c + d)
      = will_frog_die_at_position g ((ch.val : Int) + 5) c := by
  have ho := scroll_river_channel_offset g ch d hp hd
  have hp2 : 0 ≤ (scroll_river_channel g ch d).log_position ch
      ∧ (scroll_river_channel g ch d).log_position ch < 32 := by
    rw [ho]
    omega
  rw [oracle_river_row_val _ ch _ (c + d) rfl hcd hp2,
    oracle_river_row_val g ch _ c rfl hc hp, ho]
  have e : ((g.log_position ch - d) % 32 + (c + d)) % 32 = (g.log_position ch + c) % 32 := by
    omega
  rw [e]

/-! ### The offsets stay bit positions -/

lemma mark_riverbank_positions (g : Game) :
    (mark_riverbank g).lane_position = g.lane_position
      ∧ (mark_riverbank g).log_position = g.log_position := by
  unfold mark_riverbank
  split_ifs <;> exact ⟨rfl, rfl⟩

lemma move_frog_forward_positions (g : Game) :
    (move_frog_forward g).lane_position = g.lane_position
      ∧ (move_frog_forward g).log_position = g.log_position := by
  unfold move_frog_forward
  simp only
  rw [(mark_riverbank_positions _).1, (mark_riverbank_positions _).2]
  split_ifs <;> exact ⟨rfl, rfl⟩

lemma initialise_game_offsets (g : Game) : OffsetsInRange (initialise_game g) :=
  ⟨fun _ => ⟨le_refl _, show (0 : Int) < 64 by decide⟩,
    fun _ => ⟨le_refl _, show (0 : Int) < 32 by decide⟩⟩

lemma Op.apply_offsets (g : Game) (op : Op) (h : OffsetsInRange g) :
    OffsetsInRange (op.apply g) := by
  cases op with
  | forward =>
    simp only [Op.apply, OffsetsInRange, (move_frog_forward_positions g).1,
      (move_frog_forward_positions g).2]
    exact h
  | backward =>
    simp only [Op.apply, OffsetsInRange, move_frog_backward,
      (mark_riverbank_positions _).1, (mark_riverbank_positions _).2]
    exact h
  | left =>
    simp only [Op.apply, OffsetsInRange, move_frog_to_left,
      (mark_riverbank_positions _).1, (mark_riverbank_positions _).2]
    exact h
  | right =>
    simp only [Op.apply, OffsetsInRange, move_frog_to_right,
      (mark_riverbank_positions _).1, (mark_riverbank_positions _).2]
    exact h
  | restart => exact h
  | kill => exact h
  | lane l d =>
    refine ⟨fun j => ?_, fun j => ?_⟩
    · simp only [Op.apply, scroll_vehicle_lane_lane_position]
      by_cases hj : j = l
      · rw [hj, Function.update_same]
        exact wrap_in_range _ 64 (by decide)
      · rw [Function.update_noteq hj]
        exact h.1 j
    · simp only [Op.apply, (scroll_vehicle_lane_frame g l d).1]
      exact h.2 j
  | channel c d =>
    refine ⟨fun j => ?_, fun j => ?_⟩
    · simp only [Op.apply, (scroll_river_channel_frame g c d).1]
      exact h.1 j
    · simp only [Op.apply, scroll_river_channel_log_position]
      by_cases hj : j = c
      · rw [hj, Function.update_same]
        exact wrap_in_range _ 32 (by decide)
      · rw [Function.update_noteq hj]
        exact h.2 j

lemma run_offsets (ops : List Op) (g : Game) (h : OffsetsInRange g) :
    OffsetsInRange (run g ops) := by
  induction ops generalizing g with
  | nil => exact h
  | cons op ops ih => exact ih (op.apply g) (Op.apply_offsets g op h)

/-! ### The riverbank being full -/

lemma testBit_false_of_lt_65536 (s k : Nat) (hs : s < 65536) (hk : 16 ≤ k) :
    s.testBit k = false := by
  apply Nat.testBit_eq_false_of_lt
  calc s < 2 ^ 16 := by omega
    _ ≤ 2 ^ k := Nat.pow_le_pow_right (by norm_num) hk

lemma RIVERBANK_bit_lt (k : Nat) (h : RIVERBANK.testBit k = true) : k < 16 := by
  by_contra hk
  rw [testBit_false_of_lt_65536 RIVERBANK k (by decide) (by omega)] at h
  exact absurd h (by decide)

lemma eq_65535_iff_bits (s : Nat) (hs : s < 65536) :
    s = 0xFFFF ↔ ∀ k, k < 16 → s.testBit k = true := by
  constructor
  · intro h k hk
    rw [h]
    have e : (0xFFFF : Nat) = 2 ^ 16 - 1 := by norm_num
    rw [e, Nat.testBit_two_pow_sub_one]
    simpa using hk
  · intro h
    apply Nat.eq_of_testBit_eq
    intro i
    by_cases hi : i < 16
    · rw [h i hi]
      have e : (0xFFFF : Nat) = 2 ^ 16 - 1 := by norm_num
      rw [e, Nat.testBit_two_pow_sub_one]
      simpa using hi
    · rw [testBit_false_of_lt_65536 s i hs (by omega),
        testBit_false_of_lt_65536 0xFFFF i (by norm_num) (by omega)]

lemma is_riverbank_full_iff (g : Game) :
    is_riverbank_full g = 1 ↔ g.riverbank_status = 0xFFFF := by
  unfold is_riverbank_full
  split_ifs with h
  · exact ⟨fun _ => h, fun _ => rfl⟩
  · exact ⟨fun h1 => absurd h1 (by decide), fun h1 => absurd h1 h⟩

lemma fill_hole_status (g : Game) (c : Nat) :
    (fill_hole g c).riverbank_status = (g.riverbank_status ||| (1 <<< c)) % 65536 := by
  simp [fill_hole, mark_riverbank, RIVERBANK_ROW]

lemma foldl_fill_hole_lt (cols : List Nat) (g : Game) (hs : g.riverbank_status < 65536) :
    (cols.foldl fill_hole g).riverbank_status < 65536 := by
  induction cols generalizing g with
  | nil => exact hs
  | cons c cs ih =>
    apply ih
    rw [fill_hole_status]
    exact Nat.mod_lt _ (by norm_num)

lemma foldl_fill_hole_bit (cols : List Nat) (g : Game) (k : Nat) (hk : k < 16)
    (h : k ∈ cols ∨ g.riverbank_status.testBit k = true) :
    (cols.foldl fill_hole g).riverbank_status.testBit k = true := by
  induction cols generalizing g with
  | nil =>
    rcases h with h | h
    · exact absurd h (List.not_mem_nil k)
    · exact h
  | cons c cs ih =>
    apply ih
    rcases h with h | h
    · rcases List.mem_cons.1 h with h | h
      · right
        have e : (65536 : Nat) = 2 ^ 16 := by norm_num
        rw [fill_hole_status, e, Nat.testBit_mod_two_pow, Nat.testBit_or, ← h,
          Nat.one_shiftLeft, Nat.testBit_two_pow_self]
        simp [hk]
      · exact Or.inl h
    · right
      rw [fill_hole_status]
      exact testBit_or_mod _ _ k hk h

/-! ### Frames of the moves -/

lemma mark_riverbank_score (g : Game) : (mark_riverbank g).score = g.score := by
  unfold mark_riverbank
  split_ifs <;> rfl

lemma move_frog_forward_score (g : Game) :
    (move_frog_forward g).score =
      if (move_frog_forward g).frog_dead = 0 then (g.score + 1) % 256 else g.score := by
  rw [(move_frog_forward_frog g).1]
  unfold move_frog_forward
  simp only
  rw [mark_riverbank_score]
  split_ifs <;> rfl

lemma scroll_vehicle_lane_other_row (g : Game) (l : Fin 3) (d : Int)
    (hrow : g.frog_row ≠ (l.val : Int) + 1) :
    (scroll_vehicle_lane g l d).frog_dead = g.frog_dead := by
  simp [scroll_vehicle_lane, FIRST_VEHICLE_ROW, hrow]

lemma scroll_river_channel_other_row (g : Game) (ch : Fin 2) (d : Int)
    (hrow : g.frog_row ≠ (ch.val : Int) + 5) :
    (scroll_river_channel g ch d).frog_column = g.frog_column
      ∧ (scroll_river_channel g ch d).frog_dead = g.frog_dead := by
  simp [scroll_river_channel, FIRST_RIVER_ROW, hrow]

lemma scroll_river_channel_stays_dead (g : Game) (ch : Fin 2) (d : Int)
    (h : g.frog_dead ≠ 0) : (scroll_river_channel g ch d).frog_dead ≠ 0 := by
  simp only [scroll_river_channel]
  split_ifs <;> first | exact h | exact one_ne_zero

/-! ### A live frog is on a safe cell -/

lemma oracle_zero_row (g : Game) (row column : Int)
    (h : will_frog_die_at_position g row column = 0) : 0 ≤ row ∧ row ≤ 7 := by
  by_contra hc
  have h1 : will_frog_die_at_position g row column = 1 :=
    oracle_off_field g row column (by omega)
  omega

/-- The oracle at a row reads only the offset of that row's lane or channel,
or, in row 7, the riverbank status. -/
lemma oracle_congr_row (g g1 : Game) (r c : Int)
    (hlane : ∀ j : Fin 3, r = (j.val : Int) + 1 → g1.lane_position j = g.lane_position j)
    (hlog : ∀ j : Fin 2, r = (j.val : Int) + 5 → g1.log_position j = g.log_position j)
    (hst : r = 7 → g1.riverbank_status = g.riverbank_status) :
    will_frog_die_at_position g1 r c = will_frog_die_at_position g r c := by
  unfold will_frog_die_at_position
  by_cases h1 : 1 ≤ r ∧ r ≤ 3
  · have e := hlane ⟨(r - 1).toNat, by omega⟩ (by simp only; omega)
    simp only [dif_pos h1, e]
  · by_cases h2 : 5 ≤ r ∧ r ≤ 6
    · have e := hlog ⟨(r - 5).toNat, by omega⟩ (by simp only; omega)
      simp only [dif_neg h1, dif_pos h2, e]
    · by_cases h3 : r = 7
      · simp only [dif_neg h1, dif_neg h2, if_pos h3, hst h3]
      · simp only [dif_neg h1, dif_neg h2, if_neg h3]

lemma move_frog_backward_positions (g : Game) :
    (move_frog_backward g).lane_position = g.lane_position
      ∧ (move_frog_backward g).log_position = g.log_position := by
  unfold move_frog_backward
  exact mark_riverbank_positions _

lemma move_frog_to_left_positions (g : Game) :
    (move_frog_to_left g).lane_position = g.lane_position
      ∧ (move_frog_to_left g).log_position = g.log_position := by
  unfold move_frog_to_left
  exact mark_riverbank_positions _

lemma move_frog_to_right_positions (g : Game) :
    (move_frog_to_right g).lane_position = g.lane_position
      ∧ (move_frog_to_right g).log_position = g.log_position := by
  unfold move_frog_to_right
  exact mark_riverbank_positions _

lemma or_bit_lt_65536 (s k : Nat) (hs : s < 65536) (hk : k < 16) :
    s ||| (1 <<< k) < 65536 := by
  rw [← or_bit_lt s k hs hk]
  exact Nat.mod_lt _ (by norm_num)

/-- What the invariants need of a move: `g1` is the state after a move from
`g` with candidate cell `(r, c)`. -/
lemma move_keeps_safe (g g1 : Game) (r c : Int)
    (hd : g1.frog_dead = will_frog_die_at_position g r c)
    (hr : g1.frog_row = r) (hc : g1.frog_column = c)
    (hlane : g1.lane_position = g.lane_position)
    (hlog : g1.log_position = g.log_position)
    (hst : g1.riverbank_status =
      if g1.frog_dead = 0 ∧ g1.frog_row = 7 then
        g.riverbank_status ||| (1 <<< g1.frog_column.toNat)
      else g.riverbank_status)
    (hs : g.riverbank_status < 65536) :
    LiveFrogSafe g1 ∧ g1.riverbank_status < 65536 := by
  constructor
  · intro halive
    have hv : will_frog_die_at_position g r c = 0 := by rw [← hd]; exact halive
    have hrow := oracle_zero_row g r c hv
    have hcol := oracle_zero_column g r c hv
    rw [hr, hc]
    refine ⟨hrow, hcol, fun h7 => ?_, fun h7 => ?_⟩
    · rw [oracle_congr_row g g1 r c (fun j _ => by rw [hlane]) (fun j _ => by rw [hlog])
        (fun h => absurd h h7)]
      exact hv
    · rw [hst, if_pos ⟨halive, hr.trans h7⟩, hc, Nat.testBit_or, Nat.one_shiftLeft,
        Nat.testBit_two_pow_self]
      simp
  · rw [hst]
    split_ifs with h
    · have hv : will_frog_die_at_position g r c = 0 := by rw [← hd]; exact h.1
      have hcol := oracle_zero_column g r c hv
      rw [hc]
      exact or_bit_lt_65536 _ _ hs (by omega)
    · exact hs

lemma oracle_safe_row (g : Game) (row column : Int)
    (hrow : row = 0 ∨ row = 4) (hcol : 0 ≤ column ∧ column ≤ 15) :
    will_frog_die_at_position g row column = 0 := by
  unfold will_frog_die_at_position
  rw [if_neg (by omega), if_pos hrow]

lemma put_frog_in_start_position_safe (g : Game) :
    LiveFrogSafe (put_frog_in_start_position g) := by
  intro _
  refine ⟨show (0 : Int) ≤ 0 ∧ (0 : Int) ≤ 7 by decide,
    show (0 : Int) ≤ 7 ∧ (7 : Int) ≤ 15 by decide, fun _ => ?_,
    fun h => absurd h (show ¬ (0 : Int) = 7 by decide)⟩
  exact oracle_safe_row _ 0 7 (Or.inl rfl) (by decide)

lemma scroll_vehicle_lane_safe (g : Game) (l : Fin 3) (d : Int) (hsafe : LiveFrogSafe g) :
    LiveFrogSafe (scroll_vehicle_lane g l d) := by
  have hl : l.val < 3 := l.isLt
  obtain ⟨hrow, hcol⟩ := scroll_vehicle_lane_frog g l d
  obtain ⟨hlog, hst⟩ := scroll_vehicle_lane_frame g l d
  intro halive
  rw [hrow, hcol, hst]
  by_cases hin : g.frog_row = (l.val : Int) + 1
  · have hv := scroll_vehicle_lane_frog_dead g l d hin
    rw [halive] at hv
    exact ⟨oracle_zero_row _ _ _ hv.symm, oracle_zero_column _ _ _ hv.symm,
      fun _ => hv.symm, fun h7 => by omega⟩
  · rw [scroll_vehicle_lane_other_row g l d hin] at halive
    obtain ⟨h1, h2, h3, h4⟩ := hsafe halive
    refine ⟨h1, h2, fun h7 => ?_, h4⟩
    rw [oracle_congr_row g _ _ _ (fun j hj => ?_) (fun j _ => by rw [hlog]) (fun _ => hst)]
    · exact h3 h7
    · have hjl : j ≠ l := fun e => hin (by rw [hj, e])
      rw [scroll_vehicle_lane_lane_position, Function.update_noteq hjl]

lemma scroll_river_channel_safe (g : Game) (ch : Fin 2) (d : Int)
    (hd : d = -1 ∨ d = 0 ∨ d = 1)
    (hp : 0 ≤ g.log_position ch ∧ g.log_position ch < 32) (hsafe : LiveFrogSafe g) :
    LiveFrogSafe (scroll_river_channel g ch d) := by
  have hl : ch.val < 2 := ch.isLt
  obtain ⟨hlane, hst, hrow⟩ := scroll_river_channel_frame g ch d
  intro halive
  rw [hrow, hst]
  by_cases hin : g.frog_row = (ch.val : Int) + 5
  · by_cases hedge : (d = 1 ∧ g.frog_column = 15) ∨ (d = -1 ∧ g.frog_column = 0)
    · rw [(scroll_river_channel_edge g ch d hin hedge).2] at halive
      exact absurd halive (by decide)
    · obtain ⟨hcol, hdead⟩ := scroll_river_channel_carried g ch d hin
        (fun h => hedge (Or.inl h)) (fun h => hedge (Or.inr h))
      rw [hdead] at halive
      obtain ⟨h1, h2, h3, _⟩ := hsafe halive
      have hcd : 0 ≤ g.frog_column + d ∧ g.frog_column + d ≤ 15 := by omega
      rw [hcol, toInt8_eq_self _ (by omega)]
      refine ⟨h1, hcd, fun h7 => ?_, fun h7 => by omega⟩
      have hv := river_carry_same_verdict g ch g.frog_column d (by omega) h2 hcd hp
      rw [hin, hv, ← hin]
      exact h3 h7
  · obtain ⟨hcol, hdead⟩ := scroll_river_channel_other_row g ch d hin
    rw [hdead] at halive
    obtain ⟨h1, h2, h3, h4⟩ := hsafe halive
    rw [hcol]
    refine ⟨h1, h2, fun h7 => ?_, h4⟩
    rw [oracle_congr_row g _ _ _ (fun j _ => by rw [hlane]) (fun j hj => ?_) (fun _ => hst)]
    · exact h3 h7
    · have hjl : j ≠ ch := fun e => hin (by rw [hj, e])
      rw [scroll_river_channel_log_position, Function.update_noteq hjl]

/-- Every public operation, the scrolls with a direction of -1, 0 or +1, keeps
a live frog on a safe cell and the status a 16-bit value. -/
lemma Op.apply_safe (g : Game) (op : Op) (hdir : op.unit_direction)
    (hoff : OffsetsInRange g) (hs : g.riverbank_status < 65536) (hsafe : LiveFrogSafe g) :
    LiveFrogSafe (op.apply g) ∧ (op.apply g).riverbank_status < 65536 := by
  cases op with
  | forward =>
    exact move_keeps_safe g _ _ _ (move_frog_forward_frog g).1 (move_frog_forward_frog g).2.1
      (move_frog_forward_frog g).2.2 (move_frog_forward_positions g).1
      (move_frog_forward_positions g).2 (move_frog_forward_marks g hs) hs
  | backward =>
    exact move_keeps_safe g _ _ _ (move_frog_backward_frog g).1
      (move_frog_backward_frog g).2.1 (move_frog_backward_frog g).2.2
      (move_frog_backward_positions g).1 (move_frog_backward_positions g).2
      (move_frog_backward_marks g hs) hs
  | left =>
    exact move_keeps_safe g _ _ _ (move_frog_to_left_frog g).1
      (move_frog_to_left_frog g).2.1 (move_frog_to_left_frog g).2.2
      (move_frog_to_left_positions g).1 (move_frog_to_left_positions g).2
      (move_frog_to_left_marks g hs) hs
  | right =>
    exact move_keeps_safe g _ _ _ (move_frog_to_right_frog g).1
      (move_frog_to_right_frog g).2.1 (move_frog_to_right_frog g).2.2
      (move_frog_to_right_positions g).1 (move_frog_to_right_positions g).2
      (move_frog_to_right_marks g hs) hs
  | restart => exact ⟨put_frog_in_start_position_safe g, hs⟩
  | kill => exact ⟨fun h => absurd h (show ¬ (1 : Nat) = 0 by decide), hs⟩
  | lane l d =>
    refine ⟨scroll_vehicle_lane_safe g l d hsafe, ?_⟩
    simp only [Op.apply, (scroll_vehicle_lane_frame g l d).2]
    exact hs
  | channel c d =>
    refine ⟨scroll_river_channel_safe g c d hdir (hoff.2 c) hsafe, ?_⟩
    simp only [Op.apply, (scroll_river_channel_frame g c d).2.1]
    exact hs

lemma run_safe (ops : List Op) (g : Game) (hdir : ∀ op ∈ ops, op.unit_direction)
    (hoff : OffsetsInRange g) (hs : g.riverbank_status < 65536) (hsafe : LiveFrogSafe g) :
    LiveFrogSafe (run g ops) ∧ (run g ops).riverbank_status < 65536 := by
  induction ops generalizing g with
  | nil => exact ⟨hsafe, hs⟩
  | cons op ops ih =>
    have h := Op.apply_safe g op (hdir op (List.mem_cons_self op ops)) hoff hs hsafe
    exact ih (op.apply g) (fun o ho => hdir o (List.mem_cons_of_mem op ho))
      (Op.apply_offsets g op hoff) h.2 h.1

lemma initialise_game_safe (g : Game) : LiveFrogSafe (initialise_game g) :=
  put_frog_in_start_position_safe _

lemma initialise_game_status_lt (g : Game) : (initialise_game g).riverbank_status < 65536 := by
  show RIVERBANK < 65536
  decide

/-! ### Landings and holes -/

lemma holes_filled_or (s c : Nat) (hc : c = 1 ∨ c = 5 ∨ c = 9 ∨ c = 13)
    (hb : s.testBit c = false) :
    ((s ||| (1 <<< c)).testBit 1).toNat + ((s ||| (1 <<< c)).testBit 5).toNat
        + ((s ||| (1 <<< c)).testBit 9).toNat + ((s ||| (1 <<< c)).testBit 13).toNat
      = (s.testBit 1).toNat + (s.testBit 5).toNat + (s.testBit 9).toNat
        + (s.testBit 13).toNat + 1 := by
  have key : ∀ k, (s ||| (1 <<< c)).testBit k = (s.testBit k || decide (c = k)) := by
    intro k
    rw [Nat.testBit_or, Nat.one_shiftLeft, Nat.testBit_two_pow]
  simp only [key]
  rcases hc with rfl | rfl | rfl | rfl <;> simp [hb] <;> omega

lemma hole_of_free_bit (g : Game) (hedge : EdgesSet g) (c : Int) (hc : 0 ≤ c ∧ c ≤ 15)
    (hb : g.riverbank_status.testBit c.toNat = false) :
    c = 1 ∨ c = 5 ∨ c = 9 ∨ c = 13 := by
  by_contra hne
  have hk : RIVERBANK.testBit c.toNat = true := by
    obtain ⟨h0, h15⟩ := hc
    interval_cases c <;> first | (exfalso; omega) | decide
  rw [hedge.2 _ hk] at hb
  exact absurd hb (by decide)

/-- What a move from `g` with candidate cell `(r, c)` does to the holes. -/
lemma move_landing (g g1 : Game) (r c : Int)
    (hd : g1.frog_dead = will_frog_die_at_position g r c)
    (hr : g1.frog_row = r) (hc : g1.frog_column = c)
    (hst : g1.riverbank_status =
      if g1.frog_dead = 0 ∧ g1.frog_row = 7 then
        g.riverbank_status ||| (1 <<< g1.frog_column.toNat)
      else g.riverbank_status)
    (hedge : EdgesSet g) :
    (g1.frog_dead = 0 ∧ g1.frog_row = 7 →
      (g1.frog_column = 1 ∨ g1.frog_column = 5 ∨ g1.frog_column = 9 ∨ g1.frog_column = 13)
        ∧ g.riverbank_status.testBit g1.frog_column.toNat = false
        ∧ g1.riverbank_status.testBit g1.frog_column.toNat = true
        ∧ holes_filled g1 = holes_filled g + 1)
    ∧ (¬ (g1.frog_dead = 0 ∧ g1.frog_row = 7) → g1.riverbank_status = g.riverbank_status) := by
  constructor
  · intro hland
    have hv : will_frog_die_at_position g 7 c = 0 := by
      rw [← hland.2, hr] at *
      rw [← hd]
      exact hland.1
    have hcol := oracle_zero_column g 7 c hv
    have hfree : g.riverbank_status.testBit c.toNat = false := by
      rw [oracle_riverbank_row g c hcol] at hv
      exact (shiftRight_and_one_eq_zero_iff _ _).1 hv
    have hhole := hole_of_free_bit g hedge c hcol hfree
    rw [if_pos hland] at hst
    rw [hc] at hst ⊢
    refine ⟨hhole, hfree, ?_, ?_⟩
    · rw [hst, Nat.testBit_or, Nat.one_shiftLeft, Nat.testBit_two_pow_self]
      simp
    · unfold holes_filled
      rw [hst]
      apply holes_filled_or _ _ _ hfree
      omega
  · intro hno
    rw [hst, if_neg hno]

lemma landed_iff (g : Game) : landed g = true ↔ g.frog_dead = 0 ∧ g.frog_row = 7 := by
  simp [landed, RIVERBANK_ROW]

lemma move_holes (g g1 : Game) (r c : Int)
    (hd : g1.frog_dead = will_frog_die_at_position g r c)
    (hr : g1.frog_row = r) (hc : g1.frog_column = c)
    (hst : g1.riverbank_status =
      if g1.frog_dead = 0 ∧ g1.frog_row = 7 then
        g.riverbank_status ||| (1 <<< g1.frog_column.toNat)
      else g.riverbank_status)
    (hedge : EdgesSet g) :
    holes_filled g1 = holes_filled g + (if landed g1 then 1 else 0) := by
  obtain ⟨h1, h2⟩ := move_landing g g1 r c hd hr hc hst hedge
  by_cases hl : g1.frog_dead = 0 ∧ g1.frog_row = 7
  · rw [if_pos ((landed_iff g1).2 hl)]
    exact (h1 hl).2.2.2
  · rw [if_neg (fun h => hl ((landed_iff g1).1 h))]
    unfold holes_filled
    rw [h2 hl]
    rfl

lemma Op.apply_holes (g : Game) (op : Op) (hedge : EdgesSet g) :
    holes_filled (op.apply g)
      = holes_filled g + (if op.is_move && landed (op.apply g) then 1 else 0) := by
  have hs := hedge.1
  cases op with
  | forward =>
    simpa [Op.is_move] using move_holes g _ _ _ (move_frog_forward_frog g).1
      (move_frog_forward_frog g).2.1 (move_frog_forward_frog g).2.2
      (move_frog_forward_marks g hs) hedge
  | backward =>
    simpa [Op.is_move] using move_holes g _ _ _ (move_frog_backward_frog g).1
      (move_frog_backward_frog g).2.1 (move_frog_backward_frog g).2.2
      (move_frog_backward_marks g hs) hedge
  | left =>
    simpa [Op.is_move] using move_holes g _ _ _ (move_frog_to_left_frog g).1
      (move_frog_to_left_frog g).2.1 (move_frog_to_left_frog g).2.2
      (move_frog_to_left_marks g hs) hedge
  | right =>
    simpa [Op.is_move] using move_holes g _ _ _ (move_frog_to_right_frog g).1
      (move_frog_to_right_frog g).2.1 (move_frog_to_right_frog g).2.2
      (move_frog_to_right_marks g hs) hedge
  | restart => rfl
  | kill => rfl
  | lane l d =>
    simp only [Op.is_move, Bool.false_and, Bool.false_eq_true, if_false, Nat.add_zero,
      holes_filled, Op.apply, (scroll_vehicle_lane_frame g l d).2]
  | channel c d =>
    simp only [Op.is_move, Bool.false_and, Bool.false_eq_true, if_false, Nat.add_zero,
      holes_filled, Op.apply, (scroll_river_channel_frame g c d).2.1]

lemma Op.apply_edges (g : Game) (op : Op) (hedge : EdgesSet g) :
    EdgesSet (op.apply g) := by
  have hs := hedge.1
  refine ⟨?_, fun k hk => Op.apply_status_bit g op k (RIVERBANK_bit_lt k hk) (hedge.2 k hk)⟩
  cases op with
  | forward =>
    exact (move_keeps_safe g _ _ _ (move_frog_forward_frog g).1
      (move_frog_forward_frog g).2.1 (move_frog_forward_frog g).2.2
      (move_frog_forward_positions g).1 (move_frog_forward_positions g).2
      (move_frog_forward_marks g hs) hs).2
  | backward =>
    exact (move_keeps_safe g _ _ _ (move_frog_backward_frog g).1
      (move_frog_backward_frog g).2.1 (move_frog_backward_frog g).2.2
      (move_frog_backward_positions g).1 (move_frog_backward_positions g).2
      (move_frog_backward_marks g hs) hs).2
  | left =>
    exact (move_keeps_safe g _ _ _ (move_frog_to_left_frog g).1
      (move_frog_to_left_frog g).2.1 (move_frog_to_left_frog g).2.2
      (move_frog_to_left_positions g).1 (move_frog_to_left_positions g).2
      (move_frog_to_left_marks g hs) hs).2
  | right =>
    exact (move_keeps_safe g _ _ _ (move_frog_to_right_frog g).1
      (move_frog_to_right_frog g).2.1 (move_frog_to_right_frog g).2.2
      (move_frog_to_right_positions g).1 (move_frog_to_right_positions g).2
      (move_frog_to_right_marks g hs) hs).2
  | restart => exact hs
  | kill => exact hs
  | lane l d =>
    simp only [Op.apply, (scroll_vehicle_lane_frame g l d).2]
    exact hs
  | channel c d =>
    simp only [Op.apply, (scroll_river_channel_frame g c d).2.1]
    exact hs

lemma run_holes (ops : List Op) (g : Game) (hedge : EdgesSet g) :
    EdgesSet (run g ops) ∧ holes_filled (run g ops) = holes_filled g + landings g ops := by
  induction ops generalizing g with
  | nil => exact ⟨hedge, rfl⟩
  | cons op ops ih =>
    obtain ⟨h1, h2⟩ := ih (op.apply g) (Op.apply_edges g op hedge)
    refine ⟨h1, ?_⟩
    show holes_filled (run (op.apply g) ops) = _
    rw [h2, Op.apply_holes g op hedge]
    simp only [landings]
    omega

lemma initialise_game_edges (g : Game) : EdgesSet (initialise_game g) :=
  ⟨initialise_game_status_lt g, fun _ hk => hk⟩

lemma initialise_game_holes (g : Game) : holes_filled (initialise_game g) = 0 := by
  show (RIVERBANK.testBit 1).toNat + (RIVERBANK.testBit 5).toNat
    + (RIVERBANK.testBit 9).toNat + (RIVERBANK.testBit 13).toNat = 0
  decide

lemma full_iff_hole_bits (g : Game) (hedge : EdgesSet g) :
    is_riverbank_full g = 1 ↔
      (g.riverbank_status.testBit 1 = true ∧ g.riverbank_status.testBit 5 = true
        ∧ g.riverbank_status.testBit 9 = true ∧ g.riverbank_status.testBit 13 = true) := by
  rw [is_riverbank_full_iff, eq_65535_iff_bits _ hedge.1]
  constructor
  · intro h
    exact ⟨h 1 (by norm_num), h 5 (by norm_num), h 9 (by norm_num), h 13 (by norm_num)⟩
  · rintro ⟨h1, h5, h9, h13⟩ k hk
    interval_cases k <;> first | assumption | exact hedge.2 _ (by decide)

lemma hole_bits_iff_four (g : Game) :
    (g.riverbank_status.testBit 1 = true ∧ g.riverbank_status.testBit 5 = true
        ∧ g.riverbank_status.testBit 9 = true ∧ g.riverbank_status.testBit 13 = true)
      ↔ holes_filled g = 4 := by
  unfold holes_filled
  cases g.riverbank_status.testBit 1 <;> cases g.riverbank_status.testBit 5 <;>
    cases g.riverbank_status.testBit 9 <;> cases g.riverbank_status.testBit 13 <;>
    simp

/-! ### The drawn rows -/

lemma traffic_lane_cells_get (p : PixelColours) (lane : Fin 3) (n bp i : Nat)
    (hbp : bp < 64) (hi : i < n) :
    (traffic_lane_cells p lane n bp)[i]? =
      some (if (lane_data lane).testBit ((bp + i) % 64) = true then vehicle_colours p lane
        else COLOUR_ROAD p) := by
  induction n generalizing bp i with
  | zero => omega
  | succ n ih =>
    cases i with
    | zero =>
      simp only [traffic_lane_cells, List.getElem?_cons_zero, Nat.add_zero,
        Nat.mod_eq_of_lt hbp]
      by_cases hb : (lane_data lane).testBit bp = true
      · have h1 := (shiftRight_and_one_eq_one_iff (lane_data lane) bp).2 hb
        rw [if_pos (by rw [h1]; exact one_ne_zero), if_pos hb]
      · have h0 := (shiftRight_and_one_eq_zero_iff (lane_data lane) bp).2 (by simpa using hb)
        rw [if_neg (by rw [h0]; exact fun h => h rfl), if_neg hb]
    | succ i =>
      simp only [traffic_lane_cells, List.getElem?_cons_succ, LANE_DATA_WIDTH]
      have hstep : (if (bp + 1) % 256 ≥ 64 then 0 else (bp + 1) % 256) < 64 := by
        split_ifs <;> omega
      rw [ih _ i hstep (by omega)]
      have e : ((if (bp + 1) % 256 ≥ 64 then 0 else (bp + 1) % 256) + i) % 64
          = (bp + (i + 1)) % 64 := by
        split_ifs <;> omega
      rw [e]

lemma river_channel_cells_get (p : PixelColours) (channel : Fin 2) (n bp i : Nat)
    (hbp : bp < 32) (hi : i < n) :
    (river_channel_cells p channel n bp)[i]? =
      some (if (log_data channel).testBit ((bp + i) % 32) = true then COLOUR_LOGS p
        else COLOUR_WATER p) := by
  induction n generalizing bp i with
  | zero => omega
  | succ n ih =>
    cases i with
    | zero =>
      simp only [river_channel_cells, List.getElem?_cons_zero, Nat.add_zero,
        Nat.mod_eq_of_lt hbp]
      by_cases hb : (log_data channel).testBit bp = true
      · have h1 := (shiftRight_and_one_eq_one_iff (log_data channel) bp).2 hb
        rw [if_pos (by rw [h1]; exact one_ne_zero), if_pos hb]
      · have h0 := (shiftRight_and_one_eq_zero_iff (log_data channel) bp).2
          (by simpa using hb)
        rw [if_neg (by rw [h0]; exact fun h => h rfl), if_neg hb]
    | succ i =>
      simp only [river_channel_cells, List.getElem?_cons_succ, LOG_DATA_WIDTH]
      have hstep : (if (bp + 1) % 256 ≥ 32 then 0 else (bp + 1) % 256) < 32 := by
        split_ifs <;> omega
      rw [ih _ i hstep (by omega)]
      have e : ((if (bp + 1) % 256 ≥ 32 then 0 else (bp + 1) % 256) + i) % 32
          = (bp + (i + 1)) % 32 := by
        split_ifs <;> omega
      rw [e]

/-! ### The level banner -/

lemma level_banner_game (p : Project) (banner : List Bool) :
    (level_banner p banner).game =
      if true ∈ banner then initialise_game p.game else p.game := by
  induction banner with
  | nil => simp [level_banner]
  | cons b rest ih =>
    cases b with
    | true => simp [level_banner]
    | false => simpa [level_banner] using ih

/-- The game state after `next_level`: reset if a button was pushed during the
banner, and untouched otherwise. -/
lemma next_level_game (p : Project) (banner : List Bool) :
    (next_level p banner).game =
      if true ∈ banner then initialise_game p.game else p.game := by
  unfold next_level
  simp only
  rw [level_banner_game]
  have e : (if get_level (add_level p) > 1 then add_lives (add_level p)
      else add_level p).game = p.game := by
    unfold add_lives add_level
    split_ifs <;> rfl
  rw [e]

/-! ### The claims about the oracle -/

/-- C1: a position whose column is outside [0,15] or whose row is outside [0,7]
is lethal, in every game state; the column test comes first, so this holds for
every row (rows 0 and 4 included) when the column is out of range. -/
theorem will_frog_die_off_field (g : Game) (row column : Int)
    (h : column < 0 ∨ column > 15 ∨ row < 0 ∨ row > 7) :
    will_frog_die_at_position g row column = 1 :=
  oracle_off_field g row column h

theorem will_frog_die_off_field_witness :
    (((16 : Int) < 0 ∨ (16 : Int) > 15 ∨ (0 : Int) < 0 ∨ (0 : Int) > 7)
      ∧ will_frog_die_at_position (initialise_game zeroGame) 0 16 = 1)
    ∧ will_frog_die_at_position (initialise_game zeroGame) 4 (-1) = 1
    ∧ will_frog_die_at_position (initialise_game zeroGame) 8 7 = 1
    ∧ will_frog_die_at_position (initialise_game zeroGame) (-1) 7 = 1 :=
  ⟨⟨by decide, will_frog_die_off_field _ 0 16 (by decide)⟩,
   will_frog_die_off_field _ 4 (-1) (by decide),
   will_frog_die_off_field _ 8 7 (by decide),
   will_frog_die_off_field _ (-1) 7 (by decide)⟩

/-- C2: in a lane row `r = l + 1` (1, 2 or 3), at a column `c` in [0,15] and
with the lane offset `pos = lane_position[l]` in [0,64), the oracle returns 1
exactly when bit `(pos + c) mod 64` of `lane_data[l]` is 1. -/
theorem lane_row_lethal_iff_bit (g : Game) (l : Fin 3) (r c : Int)
    (hr : r = (l.val : Int) + 1) (hc : 0 ≤ c ∧ c ≤ 15)
    (hp : 0 ≤ g.lane_position l ∧ g.lane_position l < 64) :
    will_frog_die_at_position g r c = 1 ↔
      (lane_data l).testBit ((g.lane_position l + c) % 64).toNat = true :=
  oracle_lane_row g l r c hr hc hp

theorem lane_row_lethal_iff_bit_witness :
    (will_frog_die_at_position (initialise_game zeroGame) 1 3 = 1 ↔
      (lane_data 0).testBit
        (((initialise_game zeroGame).lane_position 0 + 3) % 64).toNat = true)
    ∧ will_frog_die_at_position (initialise_game zeroGame) 1 3 = 1 :=
  ⟨lane_row_lethal_iff_bit (initialise_game zeroGame) 0 1 3 (by decide) (by decide)
    (by decide),
   (lane_row_lethal_iff_bit (initialise_game zeroGame) 0 1 3 (by decide) (by decide)
    (by decide)).2 (by decide)⟩

/-- C3: in a river row `r = ch + 5` (5 or 6), at a column `c` in [0,15] and
with the log offset `pos = log_position[ch]` in [0,32), the oracle returns 1
exactly when bit `(pos + c) mod 32` of `log_data[ch]` is 0 (open water). -/
theorem river_row_lethal_iff_water (g : Game) (ch : Fin 2) (r c : Int)
    (hr : r = (ch.val : Int) + 5) (hc : 0 ≤ c ∧ c ≤ 15)
    (hp : 0 ≤ g.log_position ch ∧ g.log_position ch < 32) :
    will_frog_die_at_position g r c = 1 ↔
      (log_data ch).testBit ((g.log_position ch + c) % 32).toNat = false :=
  oracle_river_row g ch r c hr hc hp

theorem river_row_lethal_iff_water_witness :
    (log_data 0).testBit ((29 + 3 : Int) % 32).toNat = false
    ∧ will_frog_die_at_position
        { initialise_game zeroGame with log_position := fun _ => 29 } 5 3 = 1 :=
  ⟨by decide,
   (river_row_lethal_iff_water
      { initialise_game zeroGame with log_position := fun _ => 29 } 0 5 3
      (by decide) (by decide) (by decide)).2 (by decide)⟩

/-- C4: in row 7, at a column `c` in [0,15], the oracle returns 1 exactly when
bit `c` of `riverbank_status` is 1, whatever the status value. -/
theorem riverbank_row_lethal_iff_bit (g : Game) (c : Int) (hc : 0 ≤ c ∧ c ≤ 15) :
    will_frog_die_at_position g 7 c = 1 ↔ g.riverbank_status.testBit c.toNat = true :=
  oracle_riverbank_row_iff g c hc

theorem riverbank_row_lethal_iff_bit_witness :
    (will_frog_die_at_position (initialise_game zeroGame) 7 2 = 1 ↔
      (initialise_game zeroGame).riverbank_status.testBit (2 : Int).toNat = true)
    ∧ will_frog_die_at_position (initialise_game zeroGame) 7 2 = 1 :=
  ⟨riverbank_row_lethal_iff_bit (initialise_game zeroGame) 2 (by decide),
   (riverbank_row_lethal_iff_bit (initialise_game zeroGame) 2 (by decide)).2 (by decide)⟩

/-- C5 as stated fails: in row 0 the oracle returns 1, not 0, at column 16,
because the column is tested before the row. -/
theorem safe_rows_not_for_every_column :
    ¬ (∀ (g : Game) (row column : Int), row = 0 ∨ row = 4 →
        will_frog_die_at_position g row column = 0) := by
  intro h
  have h1 : will_frog_die_at_position (initialise_game zeroGame) 0 16 = 0 :=
    h _ 0 16 (Or.inl rfl)
  revert h1
  decide

/-- C5, amended: in rows 0 and 4 the oracle returns 0 at every column in
[0,15], in every scroller and riverbank state. -/
theorem safe_rows_never_lethal (g : Game) (row column : Int)
    (hrow : row = 0 ∨ row = 4) (hcol : 0 ≤ column ∧ column ≤ 15) :
    will_frog_die_at_position g row column = 0 := by
  unfold will_frog_die_at_position
  rw [if_neg (by omega), if_pos hrow]

theorem safe_rows_never_lethal_witness :
    will_frog_die_at_position (initialise_game zeroGame) 4 15 = 0 :=
  safe_rows_never_lethal (initialise_game zeroGame) 4 15 (by decide) (by decide)

/-! ### The claims about the moves -/

/-- C6: after each of the four moves, from every state, `frog_dead` is the
verdict of the oracle at the candidate cell, evaluated in the state before the
move, and the frog is at that candidate cell whatever the verdict.  The
candidate is (row+1, col), (row-1, col), (row, col-1), (row, col+1), the sum
being an `int8_t` as the code passes and stores it. -/
theorem moves_commit_candidate_cell (g : Game) :
    ((move_frog_forward g).frog_dead
        = will_frog_die_at_position g (toInt8 (g.frog_row + 1)) g.frog_column
      ∧ (move_frog_forward g).frog_row = toInt8 (g.frog_row + 1)
      ∧ (move_frog_forward g).frog_column = g.frog_column)
    ∧ ((move_frog_backward g).frog_dead
        = will_frog_die_at_position g (toInt8 (g.frog_row - 1)) g.frog_column
      ∧ (move_frog_backward g).frog_row = toInt8 (g.frog_row - 1)
      ∧ (move_frog_backward g).frog_column = g.frog_column)
    ∧ ((move_frog_to_left g).frog_dead
        = will_frog_die_at_position g g.frog_row (toInt8 (g.frog_column - 1))
      ∧ (move_frog_to_left g).frog_row = g.frog_row
      ∧ (move_frog_to_left g).frog_column = toInt8 (g.frog_column - 1))
    ∧ ((move_frog_to_right g).frog_dead
        = will_frog_die_at_position g g.frog_row (toInt8 (g.frog_column + 1))
      ∧ (move_frog_to_right g).frog_row = g.frog_row
      ∧ (move_frog_to_right g).frog_column = toInt8 (g.frog_column + 1)) :=
  ⟨move_frog_forward_frog g, move_frog_backward_frog g, move_frog_to_left_frog g,
    move_frog_to_right_frog g⟩

theorem moves_commit_candidate_cell_witness :
    ((move_frog_forward (initialise_game zeroGame)).frog_dead = 1
      ∧ (move_frog_forward (initialise_game zeroGame)).frog_row = 1
      ∧ (move_frog_forward (initialise_game zeroGame)).frog_column = 7)
    ∧ ((move_frog_backward (initialise_game zeroGame)).frog_dead = 1
      ∧ (move_frog_backward (initialise_game zeroGame)).frog_row = -1
      ∧ (move_frog_backward (initialise_game zeroGame)).frog_column = 7)
    ∧ ((move_frog_to_left (initialise_game zeroGame)).frog_dead = 0
      ∧ (move_frog_to_left (initialise_game zeroGame)).frog_row = 0
      ∧ (move_frog_to_left (initialise_game zeroGame)).frog_column = 6)
    ∧ ((move_frog_to_right (initialise_game zeroGame)).frog_dead = 0
      ∧ (move_frog_to_right (initialise_game zeroGame)).frog_row = 0
      ∧ (move_frog_to_right (initialise_game zeroGame)).frog_column = 8) :=
  have h := moves_commit_candidate_cell (initialise_game zeroGame)
  ⟨⟨h.1.1.trans (by decide), h.1.2.1.trans (by decide), h.1.2.2.trans (by decide)⟩,
   ⟨h.2.1.1.trans (by decide), h.2.1.2.1.trans (by decide),
     h.2.1.2.2.trans (by decide)⟩,
   ⟨h.2.2.1.1.trans (by decide), h.2.2.1.2.1.trans (by decide),
     h.2.2.1.2.2.trans (by decide)⟩,
   ⟨h.2.2.2.1.trans (by decide), h.2.2.2.2.1.trans (by decide),
     h.2.2.2.2.2.trans (by decide)⟩⟩

/-- C7: with the frog at row `l` (0, 1 or 2) and column `c` in [0,15], when lane
`l` (the lane of row `l + 1`, its offset `pos` in [0,64)) has bit
`(pos + c) mod 64` set, a forward move leaves the frog dead at `(l + 1, c)`. -/
theorem forward_into_vehicle (g : Game) (l : Fin 3) (c : Int)
    (hrow : g.frog_row = (l.val : Int)) (hcol : g.frog_column = c)
    (hc : 0 ≤ c ∧ c ≤ 15)
    (hp : 0 ≤ g.lane_position l ∧ g.lane_position l < 64)
    (hbit : (lane_data l).testBit ((g.lane_position l + c) % 64).toNat = true) :
    (move_frog_forward g).frog_dead = 1
      ∧ (move_frog_forward g).frog_row = (l.val : Int) + 1
      ∧ (move_frog_forward g).frog_column = c := by
  have hl : l.val < 3 := l.isLt
  obtain ⟨hd, hr, hk⟩ := move_frog_forward_frog g
  have e : toInt8 (g.frog_row + 1) = (l.val : Int) + 1 := by
    rw [hrow]
    exact toInt8_eq_self _ (by omega)
  rw [e, hcol] at hd
  rw [e] at hr
  rw [hcol] at hk
  exact ⟨hd.trans ((oracle_lane_row g l _ c rfl hc hp).2 hbit), hr, hk⟩

theorem forward_into_vehicle_witness :
    (lane_data 0).testBit ((62 + 5 : Int) % 64).toNat = true
    ∧ (move_frog_forward
        { initialise_game zeroGame with
          frog_column := 5, lane_position := fun _ => 62 }).frog_dead = 1
    ∧ (move_frog_forward
        { initialise_game zeroGame with
          frog_column := 5, lane_position := fun _ => 62 }).frog_row = 1
    ∧ (move_frog_forward
        { initialise_game zeroGame with
          frog_column := 5, lane_position := fun _ => 62 }).frog_column = 5 :=
  ⟨by decide,
   forward_into_vehicle
    { initialise_game zeroGame with frog_column := 5, lane_position := fun _ => 62 }
    0 5 (by decide) (by decide) (by decide) (by decide) (by decide)⟩

/-- C8: with the frog at row 6 and column `c` in [0,15], bit `c` of
`riverbank_status` (a 16-bit value) being 0, a forward move leaves the frog
alive at `(7, c)` and the status equal to the old one with bit `c` set; and
after any further public operations other than `initialise_game`, a forward
move of a frog standing at `(6, c)` leaves that frog dead. -/
theorem forward_into_free_hole (g : Game) (c : Int)
    (hrow : g.frog_row = 6) (hcol : g.frog_column = c) (hc : 0 ≤ c ∧ c ≤ 15)
    (hs : g.riverbank_status < 65536)
    (hbit : g.riverbank_status.testBit c.toNat = false) :
    ((move_frog_forward g).frog_dead = 0
      ∧ (move_frog_forward g).frog_row = 7
      ∧ (move_frog_forward g).frog_column = c
      ∧ (move_frog_forward g).riverbank_status
          = g.riverbank_status ||| (1 <<< c.toNat))
    ∧ ∀ ops : List Op,
        (run (move_frog_forward g) ops).frog_row = 6 →
        (run (move_frog_forward g) ops).frog_column = c →
        (move_frog_forward (run (move_frog_forward g) ops)).frog_dead = 1 := by
  obtain ⟨hd, hr, hk⟩ := move_frog_forward_frog g
  have e : toInt8 (g.frog_row + 1) = 7 := by rw [hrow]; decide
  have hv : will_frog_die_at_position g 7 c = 0 := oracle_riverbank_row_free g c hc hbit
  have hst : (move_frog_forward g).riverbank_status
      = g.riverbank_status ||| (1 <<< c.toNat) := by
    rw [move_frog_forward_status, e, hcol, if_pos ⟨hv, rfl⟩]
    exact or_bit_lt _ _ hs (by omega)
  rw [e, hcol] at hd
  rw [e] at hr
  rw [hcol] at hk
  refine ⟨⟨hd.trans hv, hr, hk, hst⟩, ?_⟩
  intro ops hr2 hc2
  have hset : (move_frog_forward g).riverbank_status.testBit c.toNat = true := by
    rw [hst, Nat.testBit_or, Nat.one_shiftLeft, Nat.testBit_two_pow_self]
    simp
  have hkeep := run_status_bit ops (move_frog_forward g) c.toNat (by omega) hset
  obtain ⟨hd2, _, _⟩ := move_frog_forward_frog (run (move_frog_forward g) ops)
  have e2 : toInt8 ((run (move_frog_forward g) ops).frog_row + 1) = 7 := by
    rw [hr2]; decide
  rw [e2, hc2] at hd2
  exact hd2.trans ((oracle_riverbank_row_iff _ c hc).2 hkeep)

set_option maxRecDepth 100000 in
theorem forward_into_free_hole_witness :
    ((run (initialise_game zeroGame) path_to_hole).frog_row = 6
      ∧ (run (initialise_game zeroGame) path_to_hole).frog_column = 5
      ∧ (run (initialise_game zeroGame) path_to_hole).frog_dead = 0
      ∧ (run (initialise_game zeroGame) path_to_hole).riverbank_status = 0xDDDD)
    ∧ ((move_frog_forward (run (initialise_game zeroGame) path_to_hole)).frog_dead = 0
      ∧ (move_frog_forward (run (initialise_game zeroGame) path_to_hole)).frog_row = 7
      ∧ (move_frog_forward (run (initialise_game zeroGame) path_to_hole)).frog_column = 5
      ∧ (move_frog_forward (run (initialise_game zeroGame) path_to_hole)).riverbank_status
          = 0xDDFD)
    ∧ (move_frog_forward
        (run (move_frog_forward (run (initialise_game zeroGame) path_to_hole))
          (Op.restart :: path_to_hole))).frog_dead = 1 :=
  have h := forward_into_free_hole (run (initialise_game zeroGame) path_to_hole) 5
    (by decide) (by decide) (by decide) (by decide) (by decide)
  ⟨by decide, ⟨h.1.1, h.1.2.1, h.1.2.2.1, h.1.2.2.2.trans (by decide)⟩,
    h.2 (Op.restart :: path_to_hole) (by decide) (by decide)⟩

/-- C9: with the frog at row 6 and column `c` in [0,15], bit `c` of
`riverbank_status` being 1 already (an edge such as column 2 of the pattern
0b1101110111011101, or a filled hole), a forward move leaves the frog dead at
`(7, c)` and `riverbank_status` unchanged. -/
theorem forward_into_occupied_cell (g : Game) (c : Int)
    (hrow : g.frog_row = 6) (hcol : g.frog_column = c) (hc : 0 ≤ c ∧ c ≤ 15)
    (hbit : g.riverbank_status.testBit c.toNat = true) :
    (move_frog_forward g).frog_dead = 1
      ∧ (move_frog_forward g).frog_row = 7
      ∧ (move_frog_forward g).frog_column = c
      ∧ (move_frog_forward g).riverbank_status = g.riverbank_status := by
  obtain ⟨hd, hr, hk⟩ := move_frog_forward_frog g
  have e : toInt8 (g.frog_row + 1) = 7 := by rw [hrow]; decide
  have hv : will_frog_die_at_position g 7 c = 1 := (oracle_riverbank_row_iff g c hc).2 hbit
  have hst : (move_frog_forward g).riverbank_status = g.riverbank_status := by
    rw [move_frog_forward_status, e, hcol, if_neg]
    rw [hv]
    exact fun h => absurd h.1 (by decide)
  rw [e, hcol] at hd
  rw [e] at hr
  rw [hcol] at hk
  exact ⟨hd.trans hv, hr, hk, hst⟩

set_option maxRecDepth 100000 in
theorem forward_into_occupied_cell_witness :
    (RIVERBANK.testBit 2 = true
      ∧ (run (initialise_game zeroGame) path_to_edge).frog_row = 6
      ∧ (run (initialise_game zeroGame) path_to_edge).frog_column = 2
      ∧ (run (initialise_game zeroGame) path_to_edge).frog_dead = 0
      ∧ (run (initialise_game zeroGame) path_to_edge).riverbank_status = RIVERBANK)
    ∧ (move_frog_forward (run (initialise_game zeroGame) path_to_edge)).frog_dead = 1
    ∧ (move_frog_forward (run (initialise_game zeroGame) path_to_edge)).frog_row = 7
    ∧ (move_frog_forward (run (initialise_game zeroGame) path_to_edge)).frog_column = 2
    ∧ (move_frog_forward (run (initialise_game zeroGame) path_to_edge)).riverbank_status
        = RIVERBANK :=
  have h := forward_into_occupied_cell (run (initialise_game zeroGame) path_to_edge) 2
    (by decide) (by decide) (by decide) (by decide)
  ⟨by decide, h.1, h.2.1, h.2.2.1, h.2.2.2.trans (by decide)⟩

/-- C10: a move whose candidate cell is off the game field kills the frog, in
every state: to the left from column 0, to the right from column 15, and
backward from row 0. -/
theorem moves_off_field_kill (g : Game) :
    (g.frog_column = 0 → (move_frog_to_left g).frog_dead = 1)
    ∧ (g.frog_column = 15 → (move_frog_to_right g).frog_dead = 1)
    ∧ (g.frog_row = 0 → (move_frog_backward g).frog_dead = 1) := by
  refine ⟨fun h => ?_, fun h => ?_, fun h => ?_⟩
  · rw [(move_frog_to_left_frog g).1, h]
    exact oracle_off_field g _ _ (Or.inl (by decide))
  · rw [(move_frog_to_right_frog g).1, h]
    exact oracle_off_field g _ _ (Or.inr (Or.inl (by decide)))
  · rw [(move_frog_backward_frog g).1, h]
    exact oracle_off_field g _ _ (Or.inr (Or.inr (Or.inl (by decide))))

theorem moves_off_field_kill_witness :
    (move_frog_to_left { initialise_game zeroGame with frog_column := 0 }).frog_dead = 1
    ∧ (move_frog_to_right { initialise_game zeroGame with frog_column := 15 }).frog_dead = 1
    ∧ (move_frog_backward (initialise_game zeroGame)).frog_dead = 1 :=
  ⟨(moves_off_field_kill { initialise_game zeroGame with frog_column := 0 }).1 (by decide),
   (moves_off_field_kill { initialise_game zeroGame with frog_column := 15 }).2.1
     (by decide),
   (moves_off_field_kill (initialise_game zeroGame)).2.2 (by decide)⟩

/-- C11: after each of the four moves, from every state (the status being a
16-bit value): if the frog is then alive and in row 7, `riverbank_status` is
the old status with the bit of the frog's new column set; otherwise it is
unchanged.  So a sideways or backward move that ends alive in row 7 fills the
hole. -/
theorem moves_mark_riverbank (g : Game) (hs : g.riverbank_status < 65536) :
    ((move_frog_forward g).riverbank_status =
      if (move_frog_forward g).frog_dead = 0 ∧ (move_frog_forward g).frog_row = 7 then
        g.riverbank_status ||| (1 <<< (move_frog_forward g).frog_column.toNat)
      else g.riverbank_status)
    ∧ ((move_frog_backward g).riverbank_status =
      if (move_frog_backward g).frog_dead = 0 ∧ (move_frog_backward g).frog_row = 7 then
        g.riverbank_status ||| (1 <<< (move_frog_backward g).frog_column.toNat)
      else g.riverbank_status)
    ∧ ((move_frog_to_left g).riverbank_status =
      if (move_frog_to_left g).frog_dead = 0 ∧ (move_frog_to_left g).frog_row = 7 then
        g.riverbank_status ||| (1 <<< (move_frog_to_left g).frog_column.toNat)
      else g.riverbank_status)
    ∧ ((move_frog_to_right g).riverbank_status =
      if (move_frog_to_right g).frog_dead = 0 ∧ (move_frog_to_right g).frog_row = 7 then
        g.riverbank_status ||| (1 <<< (move_frog_to_right g).frog_column.toNat)
      else g.riverbank_status) :=
  ⟨move_frog_forward_marks g hs, move_frog_backward_marks g hs,
    move_frog_to_left_marks g hs, move_frog_to_right_marks g hs⟩

set_option maxRecDepth 100000 in
theorem moves_mark_riverbank_witness :
    ((run (initialise_game zeroGame) path_to_corner).frog_row = 7
      ∧ (run (initialise_game zeroGame) path_to_corner).frog_column = 0
      ∧ (run (initialise_game zeroGame) path_to_corner).frog_dead = 1
      ∧ (run (initialise_game zeroGame) path_to_corner).riverbank_status = 0xDDDD)
    ∧ (move_frog_to_right (run (initialise_game zeroGame) path_to_corner)).frog_dead = 0
    ∧ (move_frog_to_right (run (initialise_game zeroGame) path_to_corner)).frog_row = 7
    ∧ (move_frog_to_right (run (initialise_game zeroGame) path_to_corner)).frog_column = 1
    ∧ (move_frog_to_right (run (initialise_game zeroGame) path_to_corner)).riverbank_status
        = 0xDDDF :=
  have h := (moves_mark_riverbank (run (initialise_game zeroGame) path_to_corner)
    (by decide)).2.2.2
  ⟨by decide, by decide, by decide, by decide, h.trans (by decide)⟩

/-! ### The claims about the scrollers -/

/-- C12 as stated fails: a frog killed by `kill_frog` while on a log at
`(5, 5)` is carried to column 4 by `scroll_river_channel(0, -1)` and stays
dead, although the oracle returns 0 at `(5, 4)` in the state after the
scroll. -/
theorem river_scroll_keeps_frog_dead :
    (run (initialise_game zeroGame) (path_to_log ++ [Op.kill])).frog_row = 5
    ∧ (run (initialise_game zeroGame) (path_to_log ++ [Op.kill])).frog_column = 5
    ∧ (scroll_river_channel
        (run (initialise_game zeroGame) (path_to_log ++ [Op.kill])) 0 (-1)).frog_column = 4
    ∧ (scroll_river_channel
        (run (initialise_game zeroGame) (path_to_log ++ [Op.kill])) 0 (-1)).frog_dead = 1
    ∧ will_frog_die_at_position
        (scroll_river_channel
          (run (initialise_game zeroGame) (path_to_log ++ [Op.kill])) 0 (-1)) 5 4 = 0 := by
  decide

/-- C12, amended: for `scroll_river_channel(ch, d)` with `d` in {-1, +1}, the
frog on row `ch + 5` at column `c` in [0,15] and `c + d` in [0,15], after the
call the frog's column is `c + d` and `frog_dead` has the value it had before
the call; with the log offset in [0,32) it is the verdict of the oracle at
`(ch + 5, c + d)` in the state after the scroll provided it was the verdict at
`(ch + 5, c)` before the call. -/
theorem river_scroll_carries_frog (g : Game) (ch : Fin 2) (c d : Int)
    (hrow : g.frog_row = (ch.val : Int) + 5) (hcol : g.frog_column = c)
    (hd : d = -1 ∨ d = 1) (hc : 0 ≤ c ∧ c ≤ 15) (hcd : 0 ≤ c + d ∧ c + d ≤ 15) :
    (scroll_river_channel g ch d).frog_column = c + d
    ∧ (scroll_river_channel g ch d).frog_dead = g.frog_dead
    ∧ (0 ≤ g.log_position ch ∧ g.log_position ch < 32 →
        g.frog_dead = will_frog_die_at_position g ((ch.val : Int) + 5) c →
        (scroll_river_channel g ch d).frog_dead
          = will_frog_die_at_position (scroll_river_channel g ch d)
              ((ch.val : Int) + 5) (c + d)) := by
  obtain ⟨h1, h2⟩ := scroll_river_channel_carried g ch d hrow (by omega) (by omega)
  rw [hcol, toInt8_eq_self _ (by omega)] at h1
  refine ⟨h1, h2, fun hp hv => ?_⟩
  rw [h2, hv, river_carry_same_verdict g ch c d (by omega) hc hcd hp]

set_option maxRecDepth 100000 in
theorem river_scroll_carries_frog_witness :
    (run (initialise_game zeroGame) path_to_log).frog_dead = 0
    ∧ (scroll_river_channel (run (initialise_game zeroGame) path_to_log) 0 (-1)).frog_column
        = 4
    ∧ (scroll_river_channel (run (initialise_game zeroGame) path_to_log) 0 (-1)).frog_dead
        = 0
    ∧ will_frog_die_at_position
        (scroll_river_channel (run (initialise_game zeroGame) path_to_log) 0 (-1)) 5 4 = 0 :=
  have h := river_scroll_carries_frog (run (initialise_game zeroGame) path_to_log) 0 5 (-1)
    (by decide) (by decide) (by decide) (by decide) (by decide)
  ⟨by decide, h.1.trans (by decide), h.2.1.trans (by decide),
    (h.2.2 (by decide) (by decide)).symm.trans (h.2.1.trans (by decide))⟩

/-- C13: for `scroll_river_channel(ch, d)` with the frog on row `ch + 5`, if
`d = +1` and the frog is at column 15, or `d = -1` and the frog is at column 0,
then after the call the frog is dead and its row and column are unchanged; the
offset of the channel still advances, to `(pos - d) mod 32` for `pos` in
[0,32). -/
theorem river_scroll_at_edge (g : Game) (ch : Fin 2) (d : Int)
    (hrow : g.frog_row = (ch.val : Int) + 5)
    (hedge : (d = 1 ∧ g.frog_column = 15) ∨ (d = -1 ∧ g.frog_column = 0)) :
    (scroll_river_channel g ch d).frog_dead = 1
    ∧ (scroll_river_channel g ch d).frog_column = g.frog_column
    ∧ (scroll_river_channel g ch d).frog_row = g.frog_row
    ∧ (0 ≤ g.log_position ch ∧ g.log_position ch < 32 →
        (scroll_river_channel g ch d).log_position ch = (g.log_position ch - d) % 32) := by
  obtain ⟨h1, h2⟩ := scroll_river_channel_edge g ch d hrow hedge
  exact ⟨h2, h1, (scroll_river_channel_frame g ch d).2.2,
    fun hp => scroll_river_channel_offset g ch d hp (by omega)⟩

set_option maxRecDepth 100000 in
theorem river_scroll_at_edge_witness :
    ((run (initialise_game zeroGame) path_to_left_edge).frog_row = 5
      ∧ (run (initialise_game zeroGame) path_to_left_edge).frog_column = 0
      ∧ (run (initialise_game zeroGame) path_to_left_edge).frog_dead = 0
      ∧ (run (initialise_game zeroGame) path_to_left_edge).log_position 0 = 5)
    ∧ (scroll_river_channel
        (run (initialise_game zeroGame) path_to_left_edge) 0 (-1)).frog_dead = 1
    ∧ (scroll_river_channel
        (run (initialise_game zeroGame) path_to_left_edge) 0 (-1)).frog_column = 0
    ∧ (scroll_river_channel
        (run (initialise_game zeroGame) path_to_left_edge) 0 (-1)).log_position 0 = 6 :=
  have h := river_scroll_at_edge (run (initialise_game zeroGame) path_to_left_edge) 0 (-1)
    (by decide) (by decide)
  ⟨by decide, h.1, h.2.1.trans (by decide), (h.2.2.2 (by decide)).trans (by decide)⟩

/-- C14: for `scroll_vehicle_lane(l, d)` with the frog on row `l + 1`, after
the call the frog's row and column are unchanged and `frog_dead` is the verdict
of the oracle at the frog's cell in the state after the call, whose offset of
lane `l` is the advanced one, `(pos - d) mod 64` for `pos` in [0,64) and `d`
in {-1, 0, +1}. -/
theorem lane_scroll_rechecks_frog (g : Game) (l : Fin 3) (d : Int)
    (hrow : g.frog_row = (l.val : Int) + 1) :
    (scroll_vehicle_lane g l d).frog_row = g.frog_row
    ∧ (scroll_vehicle_lane g l d).frog_column = g.frog_column
    ∧ (scroll_vehicle_lane g l d).frog_dead
        = will_frog_die_at_position (scroll_vehicle_lane g l d) g.frog_row g.frog_column
    ∧ (0 ≤ g.lane_position l ∧ g.lane_position l < 64 → -1 ≤ d ∧ d ≤ 1 →
        (scroll_vehicle_lane g l d).lane_position l = (g.lane_position l - d) % 64) :=
  ⟨(scroll_vehicle_lane_frog g l d).1, (scroll_vehicle_lane_frog g l d).2,
    scroll_vehicle_lane_frog_dead g l d hrow,
    fun hp hd => scroll_vehicle_lane_offset g l d hp hd⟩

set_option maxRecDepth 100000 in
theorem lane_scroll_rechecks_frog_witness :
    ((run (initialise_game zeroGame) path_to_lane).frog_row = 1
      ∧ (run (initialise_game zeroGame) path_to_lane).frog_column = 6
      ∧ (run (initialise_game zeroGame) path_to_lane).frog_dead = 0
      ∧ (run (initialise_game zeroGame) path_to_lane).lane_position 0 = 63)
    ∧ (scroll_vehicle_lane (run (initialise_game zeroGame) path_to_lane) 0 1).frog_row = 1
    ∧ (scroll_vehicle_lane (run (initialise_game zeroGame) path_to_lane) 0 1).frog_column = 6
    ∧ (scroll_vehicle_lane (run (initialise_game zeroGame) path_to_lane) 0 1).frog_dead = 1
    ∧ (scroll_vehicle_lane (run (initialise_game zeroGame) path_to_lane) 0 1).lane_position 0
        = 62 :=
  have h := lane_scroll_rechecks_frog (run (initialise_game zeroGame) path_to_lane) 0 1
    (by decide)
  ⟨by decide, h.1.trans (by decide), h.2.1.trans (by decide), h.2.2.1.trans (by decide),
    (h.2.2.2 (by decide) (by decide)).trans (by decide)⟩

/-- C15: for an offset `pos` in [0,W) and a direction `d` in {-1, 0, +1},
`scroll_vehicle_lane(l, d)` leaves `lane_position[l] = (pos - d) mod 64` and
`scroll_river_channel(ch, d)` leaves `log_position[ch] = (pos - d) mod 32`;
with `d = 0` the offset is unchanged. -/
theorem scroll_advances_offset (g : Game) (d : Int) (hd : d = -1 ∨ d = 0 ∨ d = 1) :
    (∀ l : Fin 3, 0 ≤ g.lane_position l ∧ g.lane_position l < 64 →
      (scroll_vehicle_lane g l d).lane_position l = (g.lane_position l - d) % 64
      ∧ (d = 0 → (scroll_vehicle_lane g l d).lane_position l = g.lane_position l))
    ∧ (∀ ch : Fin 2, 0 ≤ g.log_position ch ∧ g.log_position ch < 32 →
      (scroll_river_channel g ch d).log_position ch = (g.log_position ch - d) % 32
      ∧ (d = 0 → (scroll_river_channel g ch d).log_position ch = g.log_position ch)) := by
  constructor
  · intro l hp
    have h := scroll_vehicle_lane_offset g l d hp (by omega)
    refine ⟨h, fun h0 => ?_⟩
    rw [h, h0]
    omega
  · intro ch hp
    have h := scroll_river_channel_offset g ch d hp (by omega)
    refine ⟨h, fun h0 => ?_⟩
    rw [h, h0]
    omega

theorem scroll_advances_offset_witness :
    (scroll_vehicle_lane (initialise_game zeroGame) 0 1).lane_position 0 = 63
    ∧ (scroll_river_channel (initialise_game zeroGame) 1 (-1)).log_position 1 = 1 :=
  ⟨(((scroll_advances_offset (initialise_game zeroGame) 1 (by decide)).1 0
      (by decide)).1).trans (by decide),
   (((scroll_advances_offset (initialise_game zeroGame) (-1) (by decide)).2 1
      (by decide)).1).trans (by decide)⟩

/-- C17: for an offset in [0,W), advancing a lane (a channel) by +1 and then by
-1 restores the offsets, the wrap-around at 0 and at W-1 included. -/
theorem scroll_round_trip (g : Game) :
    (∀ l : Fin 3, 0 ≤ g.lane_position l ∧ g.lane_position l < 64 →
      (scroll_vehicle_lane (scroll_vehicle_lane g l 1) l (-1)).lane_position
        = g.lane_position)
    ∧ (∀ ch : Fin 2, 0 ≤ g.log_position ch ∧ g.log_position ch < 32 →
      (scroll_river_channel (scroll_river_channel g ch 1) ch (-1)).log_position
        = g.log_position) := by
  constructor
  · intro l hp
    have h1 := scroll_vehicle_lane_offset g l 1 hp (by omega)
    have h2 := scroll_vehicle_lane_offset (scroll_vehicle_lane g l 1) l (-1)
      (by rw [h1]; omega) (by omega)
    have e : (scroll_vehicle_lane (scroll_vehicle_lane g l 1) l (-1)).lane_position l
        = g.lane_position l := by
      rw [h2, h1]
      omega
    funext j
    by_cases hj : j = l
    · rw [hj, e]
    · rw [scroll_vehicle_lane_lane_position, Function.update_noteq hj,
        scroll_vehicle_lane_lane_position, Function.update_noteq hj]
  · intro ch hp
    have h1 := scroll_river_channel_offset g ch 1 hp (by omega)
    have h2 := scroll_river_channel_offset (scroll_river_channel g ch 1) ch (-1)
      (by rw [h1]; omega) (by omega)
    have e : (scroll_river_channel (scroll_river_channel g ch 1) ch (-1)).log_position ch
        = g.log_position ch := by
      rw [h2, h1]
      omega
    funext j
    by_cases hj : j = ch
    · rw [hj, e]
    · rw [scroll_river_channel_log_position, Function.update_noteq hj,
        scroll_river_channel_log_position, Function.update_noteq hj]

theorem scroll_round_trip_witness :
    (scroll_vehicle_lane (initialise_game zeroGame) 0 1).lane_position 0 = 63
    ∧ (scroll_vehicle_lane (scroll_vehicle_lane (initialise_game zeroGame) 0 1)
        0 (-1)).lane_position 0 = 0
    ∧ (scroll_river_channel
        (scroll_river_channel
          { initialise_game zeroGame with log_position := fun _ => 31 } 1 1)
        1 (-1)).log_position 1 = 31 :=
  ⟨by decide,
   (congrFun ((scroll_round_trip (initialise_game zeroGame)).1 0 (by decide)) 0).trans
     (by decide),
   (congrFun ((scroll_round_trip
      { initialise_game zeroGame with log_position := fun _ => 31 }).2 1 (by decide)) 1).trans
     (by decide)⟩

/-- C16: in every state reached from `initialise_game` by a sequence of public
operations, with scrolls of any lane, channel and direction among them, every
`lane_position` is in [0,64) and every `log_position` is in [0,32).  (Of a
sequence that calls `initialise_game` again, the part after the last such call
is a sequence of this kind.) -/
theorem offsets_stay_in_range (g0 : Game) (ops : List Op) :
    (∀ l : Fin 3, 0 ≤ (run (initialise_game g0) ops).lane_position l
        ∧ (run (initialise_game g0) ops).lane_position l < 64)
    ∧ (∀ ch : Fin 2, 0 ≤ (run (initialise_game g0) ops).log_position ch
        ∧ (run (initialise_game g0) ops).log_position ch < 32) :=
  run_offsets ops (initialise_game g0) (initialise_game_offsets g0)

/-! ### The claims about the riverbank -/

/-- C18: no public operation other than `initialise_game` (the four moves,
`put_frog_in_start_position`, `kill_frog`, the two scrolls) clears any of the
16 bits of `riverbank_status`; and the bits of the edge pattern are set in
every state reached from `initialise_game` by such operations. -/
theorem riverbank_bits_never_cleared :
    (∀ (g : Game) (op : Op) (k : Nat), k < 16 →
      g.riverbank_status.testBit k = true →
      (op.apply g).riverbank_status.testBit k = true)
    ∧ (∀ (g0 : Game) (ops : List Op) (k : Nat), RIVERBANK.testBit k = true →
      (run (initialise_game g0) ops).riverbank_status.testBit k = true) :=
  ⟨fun g op k hk h => Op.apply_status_bit g op k hk h,
   fun g0 ops k h => run_status_bit ops (initialise_game g0) k (RIVERBANK_bit_lt k h) h⟩

set_option maxRecDepth 100000 in
theorem riverbank_bits_never_cleared_witness :
    (move_frog_forward (run (initialise_game zeroGame) path_to_hole)).riverbank_status
        = 0xDDFD
    ∧ (put_frog_in_start_position
        (move_frog_forward
          (run (initialise_game zeroGame) path_to_hole))).riverbank_status.testBit 5 = true
    ∧ (run (initialise_game zeroGame) path_to_corner).riverbank_status.testBit 0 = true :=
  ⟨by decide,
   riverbank_bits_never_cleared.1
     (move_frog_forward (run (initialise_game zeroGame) path_to_hole)) Op.restart 5
     (by decide) (by decide),
   riverbank_bits_never_cleared.2 zeroGame path_to_corner 0 (by decide)⟩

/-- C19: `is_riverbank_full` returns 1 exactly when `riverbank_status` is
0xFFFF, which for a 16-bit status is when all 16 bits are set; so after the
status bit of every column 0..15 has been set, in any order (and with any
repetitions), it returns 1. -/
theorem riverbank_full_iff (g : Game) :
    (is_riverbank_full g = 1 ↔ g.riverbank_status = 0xFFFF)
    ∧ (g.riverbank_status < 65536 →
        (is_riverbank_full g = 1 ↔ ∀ k, k < 16 → g.riverbank_status.testBit k = true))
    ∧ (g.riverbank_status < 65536 → ∀ cols : List Nat, (∀ k, k < 16 → k ∈ cols) →
        is_riverbank_full (cols.foldl fill_hole g) = 1) := by
  refine ⟨is_riverbank_full_iff g, fun hs => ?_, fun hs cols hall => ?_⟩
  · rw [is_riverbank_full_iff, eq_65535_iff_bits _ hs]
  · rw [is_riverbank_full_iff, eq_65535_iff_bits _ (foldl_fill_hole_lt cols g hs)]
    exact fun k hk => foldl_fill_hole_bit cols g k hk (Or.inl (hall k hk))

set_option maxRecDepth 100000 in
theorem riverbank_full_iff_witness :
    is_riverbank_full (initialise_game zeroGame) = 0
    ∧ is_riverbank_full
        ([13, 2, 1, 0, 15, 14, 9, 12, 11, 10, 3, 8, 7, 6, 5, 4, 9].foldl fill_hole
          (initialise_game zeroGame)) = 1
    ∧ is_riverbank_full
        ([13, 1, 5].foldl fill_hole (initialise_game zeroGame)) = 0 :=
  ⟨by decide,
   (riverbank_full_iff (initialise_game zeroGame)).2.2 (by decide)
     [13, 2, 1, 0, 15, 14, 9, 12, 11, 10, 3, 8, 7, 6, 5, 4, 9] (by decide),
   by decide⟩

/-- C20: from every prior state, `initialise_game` leaves `riverbank_status`
equal to the edge pattern 0b1101110111011101 (0xDDDD), every lane and log
offset at 0, and the frog alive at the start cell, row 0 and column 7. -/
theorem initialise_game_resets (g : Game) :
    (initialise_game g).riverbank_status = 0xDDDD
    ∧ (initialise_game g).riverbank_status = RIVERBANK
    ∧ (∀ l : Fin 3, (initialise_game g).lane_position l = 0)
    ∧ (∀ ch : Fin 2, (initialise_game g).log_position ch = 0)
    ∧ (initialise_game g).frog_dead = 0
    ∧ (initialise_game g).frog_row = 0
    ∧ (initialise_game g).frog_column = 7 :=
  ⟨rfl, rfl, fun _ => rfl, fun _ => rfl, rfl, rfl, rfl⟩

set_option maxRecDepth 100000 in
theorem initialise_game_resets_witness :
    ((move_frog_forward (run (initialise_game zeroGame) path_to_hole)).riverbank_status
        = 0xDDFD
      ∧ (move_frog_forward (run (initialise_game zeroGame) path_to_hole)).log_position 1
        = 31
      ∧ (move_frog_forward (run (initialise_game zeroGame) path_to_hole)).frog_row = 7)
    ∧ (initialise_game
        (move_frog_forward (run (initialise_game zeroGame) path_to_hole))).riverbank_status
        = 0xDDDD
    ∧ (initialise_game
        (move_frog_forward (run (initialise_game zeroGame) path_to_hole))).log_position 1
        = 0 :=
  have h := initialise_game_resets
    (move_frog_forward (run (initialise_game zeroGame) path_to_hole))
  ⟨by decide, h.1, h.2.2.2.1 1⟩

/-! ### The claims about the frog -/

/-- C21: from every prior state, `put_frog_in_start_position` leaves the frog
at row 0, column 7 and alive, and leaves `riverbank_status` and every lane and
log offset as they were. -/
theorem put_frog_in_start_position_frame (g : Game) :
    (put_frog_in_start_position g).frog_row = 0
    ∧ (put_frog_in_start_position g).frog_column = 7
    ∧ (put_frog_in_start_position g).frog_dead = 0
    ∧ (put_frog_in_start_position g).riverbank_status = g.riverbank_status
    ∧ (put_frog_in_start_position g).lane_position = g.lane_position
    ∧ (put_frog_in_start_position g).log_position = g.log_position :=
  ⟨rfl, rfl, rfl, rfl, rfl, rfl⟩

set_option maxRecDepth 100000 in
theorem put_frog_in_start_position_frame_witness :
    ((run (initialise_game zeroGame) path_to_corner).frog_row = 7
      ∧ (run (initialise_game zeroGame) path_to_corner).frog_column = 0
      ∧ (run (initialise_game zeroGame) path_to_corner).frog_dead = 1)
    ∧ (put_frog_in_start_position
        (run (initialise_game zeroGame) path_to_corner)).frog_row = 0
    ∧ (put_frog_in_start_position
        (run (initialise_game zeroGame) path_to_corner)).frog_column = 7
    ∧ (put_frog_in_start_position
        (run (initialise_game zeroGame) path_to_corner)).frog_dead = 0 :=
  have h := put_frog_in_start_position_frame (run (initialise_game zeroGame) path_to_corner)
  ⟨by decide, h.1, h.2.1, h.2.2.1⟩

/-- C22 as stated fails: the forward move from the start cell of a new game
kills the frog at `(1, 7)`, and the backward move that follows makes it alive
again at `(0, 7)`. -/
theorem dead_frog_revived_by_move :
    (move_frog_forward (initialise_game zeroGame)).frog_dead = 1
    ∧ (move_frog_backward (move_frog_forward (initialise_game zeroGame))).frog_dead = 0
    ∧ (move_frog_backward (move_frog_forward (initialise_game zeroGame))).frog_row = 0
    ∧ (move_frog_backward (move_frog_forward (initialise_game zeroGame))).frog_column = 7 := by
  decide

/-- C22, amended: from a state in which the frog is dead, `scroll_river_channel`,
`kill_frog` and a `scroll_vehicle_lane` of a lane that is not the frog's row
leave the frog dead; each move sets `frog_dead` to the verdict of the oracle at
the candidate cell and a `scroll_vehicle_lane` of the frog's row sets it to the
verdict at the frog's cell, so the frog stays dead exactly when that cell is
lethal; `put_frog_in_start_position` and `initialise_game` make it alive. -/
theorem dead_frog_after_each_operation (g : Game) (hdead : g.frog_dead ≠ 0) :
    (∀ (ch : Fin 2) (d : Int), (scroll_river_channel g ch d).frog_dead ≠ 0)
    ∧ (kill_frog g).frog_dead ≠ 0
    ∧ (∀ (l : Fin 3) (d : Int), g.frog_row ≠ (l.val : Int) + 1 →
        (scroll_vehicle_lane g l d).frog_dead ≠ 0)
    ∧ (∀ (l : Fin 3) (d : Int), g.frog_row = (l.val : Int) + 1 →
        (scroll_vehicle_lane g l d).frog_dead
          = will_frog_die_at_position (scroll_vehicle_lane g l d) g.frog_row g.frog_column)
    ∧ (move_frog_forward g).frog_dead
        = will_frog_die_at_position g (toInt8 (g.frog_row + 1)) g.frog_column
    ∧ (move_frog_backward g).frog_dead
        = will_frog_die_at_position g (toInt8 (g.frog_row - 1)) g.frog_column
    ∧ (move_frog_to_left g).frog_dead
        = will_frog_die_at_position g g.frog_row (toInt8 (g.frog_column - 1))
    ∧ (move_frog_to_right g).frog_dead
        = will_frog_die_at_position g g.frog_row (toInt8 (g.frog_column + 1))
    ∧ (put_frog_in_start_position g).frog_dead = 0
    ∧ (initialise_game g).frog_dead = 0 :=
  ⟨fun ch d => scroll_river_channel_stays_dead g ch d hdead,
   one_ne_zero,
   fun l d hrow => by rw [scroll_vehicle_lane_other_row g l d hrow]; exact hdead,
   fun l d hrow => scroll_vehicle_lane_frog_dead g l d hrow,
   (move_frog_forward_frog g).1, (move_frog_backward_frog g).1,
   (move_frog_to_left_frog g).1, (move_frog_to_right_frog g).1, rfl, rfl⟩

theorem dead_frog_after_each_operation_witness :
    (scroll_river_channel (move_frog_forward (initialise_game zeroGame)) 0 1).frog_dead ≠ 0
    ∧ (scroll_vehicle_lane (move_frog_forward (initialise_game zeroGame)) 1 1).frog_dead ≠ 0
    ∧ (scroll_vehicle_lane (move_frog_forward (initialise_game zeroGame)) 0 1).frog_dead
        = 0 :=
  have h := dead_frog_after_each_operation (move_frog_forward (initialise_game zeroGame))
    (by decide)
  ⟨h.1 0 1, h.2.2.1 1 1 (by decide), (h.2.2.2.1 0 1 (by decide)).trans (by decide)⟩

set_option maxRecDepth 100000 in
/-- C23 fails on the code: eight moves to the left from the start cell of a new
game leave the frog at column -1, which `get_frog_column` returns as 255, and a
move backward from the start cell leaves it at row -1, which `get_frog_row`
returns as 255. -/
theorem frog_leaves_field :
    (run (initialise_game zeroGame) path_off_left).frog_column = -1
    ∧ (run (initialise_game zeroGame) path_off_left).frog_row = 0
    ∧ get_frog_column (run (initialise_game zeroGame) path_off_left) = 255
    ∧ (run (initialise_game zeroGame) [Op.backward]).frog_row = -1
    ∧ get_frog_row (run (initialise_game zeroGame) [Op.backward]) = 255 := by
  decide

/-- C24: `scroll_vehicle_lane(l, d)` changes no lane offset other than that of
lane `l`, no log offset, not `riverbank_status` and not the frog's row or
column, and not `frog_dead` when the frog is on another row;
`scroll_river_channel(ch, d)` changes no log offset other than that of channel
`ch`, no lane offset, not `riverbank_status` and not the frog's row, and
nothing of the frog when it is on another row. -/
theorem scrolls_frame (g : Game) (d : Int) :
    (∀ l : Fin 3,
      (∀ j : Fin 3, j ≠ l → (scroll_vehicle_lane g l d).lane_position j = g.lane_position j)
      ∧ (scroll_vehicle_lane g l d).log_position = g.log_position
      ∧ (scroll_vehicle_lane g l d).riverbank_status = g.riverbank_status
      ∧ (scroll_vehicle_lane g l d).frog_row = g.frog_row
      ∧ (scroll_vehicle_lane g l d).frog_column = g.frog_column
      ∧ (g.frog_row ≠ (l.val : Int) + 1 →
          (scroll_vehicle_lane g l d).frog_dead = g.frog_dead))
    ∧ (∀ ch : Fin 2,
      (∀ j : Fin 2, j ≠ ch → (scroll_river_channel g ch d).log_position j = g.log_position j)
      ∧ (scroll_river_channel g ch d).lane_position = g.lane_position
      ∧ (scroll_river_channel g ch d).riverbank_status = g.riverbank_status
      ∧ (scroll_river_channel g ch d).frog_row = g.frog_row
      ∧ (g.frog_row ≠ (ch.val : Int) + 5 →
          (scroll_river_channel g ch d).frog_column = g.frog_column
          ∧ (scroll_river_channel g ch d).frog_dead = g.frog_dead)) := by
  constructor
  · intro l
    refine ⟨fun j hj => ?_, (scroll_vehicle_lane_frame g l d).1,
      (scroll_vehicle_lane_frame g l d).2, (scroll_vehicle_lane_frog g l d).1,
      (scroll_vehicle_lane_frog g l d).2, scroll_vehicle_lane_other_row g l d⟩
    rw [scroll_vehicle_lane_lane_position, Function.update_noteq hj]
  · intro ch
    refine ⟨fun j hj => ?_, (scroll_river_channel_frame g ch d).1,
      (scroll_river_channel_frame g ch d).2.1, (scroll_river_channel_frame g ch d).2.2,
      scroll_river_channel_other_row g ch d⟩
    rw [scroll_river_channel_log_position, Function.update_noteq hj]

set_option maxRecDepth 100000 in
theorem scrolls_frame_witness :
    (scroll_vehicle_lane (run (initialise_game zeroGame) path_to_lane) 1 (-1)).lane_position 0
        = 63
    ∧ (scroll_vehicle_lane (run (initialise_game zeroGame) path_to_lane) 1 (-1)).lane_position 1
        = 1
    ∧ (scroll_vehicle_lane (run (initialise_game zeroGame) path_to_lane) 1 (-1)).frog_dead
        = 0
    ∧ (scroll_river_channel (run (initialise_game zeroGame) path_to_lane) 0 1).frog_column
        = 6 :=
  have h := scrolls_frame (run (initialise_game zeroGame) path_to_lane)
  ⟨(((h (-1)).1 1).1 0 (by decide)).trans (by decide), by decide,
   (((h (-1)).1 1).2.2.2.2.2 (by decide)).trans (by decide),
   ((((h 1).2 0).2.2.2.2 (by decide)).1).trans (by decide)⟩

/-- C26: for `scroll_river_channel(ch, d)` with `d` in {-1, 0, +1}, the log
offset in [0,32), the frog on row `ch + 5` at column `c` in [0,15] and `c + d`
in [0,15], the frog is carried to column `c + d` and the verdict of the oracle
at `(ch + 5, c + d)` after the call is its verdict at `(ch + 5, c)` before the
call, also when the offset wraps between 0 and 31. -/
theorem log_carries_frog_on_same_bit (g : Game) (ch : Fin 2) (c d : Int)
    (hrow : g.frog_row = (ch.val : Int) + 5) (hcol : g.frog_column = c)
    (hd : d = -1 ∨ d = 0 ∨ d = 1) (hc : 0 ≤ c ∧ c ≤ 15) (hcd : 0 ≤ c + d ∧ c + d ≤ 15)
    (hp : 0 ≤ g.log_position ch ∧ g.log_position ch < 32) :
    (scroll_river_channel g ch d).frog_column = c + d
    ∧ will_frog_die_at_position (scroll_river_channel g ch d) ((ch.val : Int) + 5) (c + d)
        = will_frog_die_at_position g ((ch.val : Int) + 5) c := by
  obtain ⟨h1, _⟩ := scroll_river_channel_carried g ch d hrow (by omega) (by omega)
  rw [hcol, toInt8_eq_self _ (by omega)] at h1
  exact ⟨h1, river_carry_same_verdict g ch c d (by omega) hc hcd hp⟩

set_option maxRecDepth 100000 in
theorem log_carries_frog_on_same_bit_witness :
    ((run (initialise_game zeroGame) path_to_log).log_position 0 = 0
      ∧ (scroll_river_channel (run (initialise_game zeroGame) path_to_log) 0 1).log_position 0
          = 31)
    ∧ (scroll_river_channel (run (initialise_game zeroGame) path_to_log) 0 1).frog_column = 6
    ∧ will_frog_die_at_position
        (scroll_river_channel (run (initialise_game zeroGame) path_to_log) 0 1) 5 6 = 0 :=
  have h := log_carries_frog_on_same_bit (run (initialise_game zeroGame) path_to_log) 0 5 1
    (by decide) (by decide) (by decide) (by decide) (by decide) (by decide)
  ⟨by decide, h.1.trans (by decide), h.2.trans (by decide)⟩

/-- C30: the score is an 8-bit counter: after `add_to_score(v)` with the score
at `s`, `get_score()` returns `(s + v) mod 256`; `move_frog_forward` adds 1
(modulo 256) when the frog survives the move and nothing when it dies, and the
other three moves leave the score as it was. -/
theorem score_is_eight_bit (g : Game) :
    (∀ v : Nat, get_score (add_to_score g v) = (get_score g + v) % 256)
    ∧ (get_score (move_frog_forward g) =
        if (move_frog_forward g).frog_dead = 0 then (get_score g + 1) % 256
        else get_score g)
    ∧ get_score (move_frog_backward g) = get_score g
    ∧ get_score (move_frog_to_left g) = get_score g
    ∧ get_score (move_frog_to_right g) = get_score g :=
  ⟨fun _ => rfl, move_frog_forward_score g, mark_riverbank_score _, mark_riverbank_score _,
    mark_riverbank_score _⟩

theorem score_is_eight_bit_witness :
    get_score (add_to_score { zeroGame with score := 250 } 10) = 4
    ∧ get_score (move_frog_to_left { initialise_game zeroGame with score := 255 }) = 255
    ∧ get_score (move_frog_forward
        { initialise_game zeroGame with score := 255, frog_column := 5 }) = 0
    ∧ get_score (move_frog_forward { initialise_game zeroGame with score := 255 }) = 255 :=
  ⟨((score_is_eight_bit { zeroGame with score := 250 }).1 10).trans (by decide),
   (score_is_eight_bit { initialise_game zeroGame with score := 255 }).2.2.2.1.trans
     (by decide),
   (score_is_eight_bit
     { initialise_game zeroGame with score := 255, frog_column := 5 }).2.1.trans (by decide),
   (score_is_eight_bit { initialise_game zeroGame with score := 255 }).2.1.trans
     (by decide)⟩

/-- C25: in every state reached from `initialise_game` by the four moves,
`put_frog_in_start_position`, `kill_frog` and the two scrolls with directions
in {-1, 0, +1}, a live frog has its row in [0,7] and its column in [0,15]; if
its row is not 7 the oracle returns 0 at its cell in that state, and if its
row is 7 the `riverbank_status` bit of its column is set. -/
theorem live_frog_on_safe_cell (g0 : Game) (ops : List Op)
    (hdir : ∀ op ∈ ops, op.unit_direction)
    (halive : (run (initialise_game g0) ops).frog_dead = 0) :
    (0 ≤ (run (initialise_game g0) ops).frog_row
      ∧ (run (initialise_game g0) ops).frog_row ≤ 7)
    ∧ (0 ≤ (run (initialise_game g0) ops).frog_column
      ∧ (run (initialise_game g0) ops).frog_column ≤ 15)
    ∧ ((run (initialise_game g0) ops).frog_row ≠ 7 →
        will_frog_die_at_position (run (initialise_game g0) ops)
          (run (initialise_game g0) ops).frog_row
          (run (initialise_game g0) ops).frog_column = 0)
    ∧ ((run (initialise_game g0) ops).frog_row = 7 →
        (run (initialise_game g0) ops).riverbank_status.testBit
          (run (initialise_game g0) ops).frog_column.toNat = true) :=
  (run_safe ops (initialise_game g0) hdir (initialise_game_offsets g0)
    (initialise_game_status_lt g0) (initialise_game_safe g0)).1 halive

set_option maxRecDepth 100000 in
theorem live_frog_on_safe_cell_witness :
    ((run (initialise_game zeroGame) (path_to_hole ++ [Op.forward])).frog_dead = 0
      ∧ (run (initialise_game zeroGame) (path_to_hole ++ [Op.forward])).frog_row = 7
      ∧ (run (initialise_game zeroGame) (path_to_hole ++ [Op.forward])).frog_column = 5)
    ∧ (run (initialise_game zeroGame)
        (path_to_hole ++ [Op.forward])).riverbank_status.testBit
          (run (initialise_game zeroGame) (path_to_hole ++ [Op.forward])).frog_column.toNat
        = true
    ∧ will_frog_die_at_position (run (initialise_game zeroGame) path_to_hole)
        (run (initialise_game zeroGame) path_to_hole).frog_row
        (run (initialise_game zeroGame) path_to_hole).frog_column = 0 :=
  ⟨by decide,
   (live_frog_on_safe_cell zeroGame (path_to_hole ++ [Op.forward]) (by decide)
     (by decide)).2.2.2 (by decide),
   (live_frog_on_safe_cell zeroGame path_to_hole (by decide) (by decide)).2.2.1
     (by decide)⟩

/-- C27: in a state `s` reached from `initialise_game` by public operations,
a move that ends with the frog alive in row 7 ends at column 1, 5, 9 or 13, in
a hole that was not filled before and is filled after it (and stays so), so
each hole is landed in at most once; the number of filled holes is the number
of landings so far, and `is_riverbank_full` returns 1 exactly when the four
holes are filled, that is after exactly four landings. -/
theorem four_landings_fill_riverbank (g0 : Game) (ops : List Op) :
    (∀ m : Op, m.is_move = true →
      (m.apply (run (initialise_game g0) ops)).frog_dead = 0 →
      (m.apply (run (initialise_game g0) ops)).frog_row = 7 →
      ((m.apply (run (initialise_game g0) ops)).frog_column = 1
        ∨ (m.apply (run (initialise_game g0) ops)).frog_column = 5
        ∨ (m.apply (run (initialise_game g0) ops)).frog_column = 9
        ∨ (m.apply (run (initialise_game g0) ops)).frog_column = 13)
      ∧ (run (initialise_game g0) ops).riverbank_status.testBit
          (m.apply (run (initialise_game g0) ops)).frog_column.toNat = false
      ∧ (m.apply (run (initialise_game g0) ops)).riverbank_status.testBit
          (m.apply (run (initialise_game g0) ops)).frog_column.toNat = true)
    ∧ holes_filled (run (initialise_game g0) ops) = landings (initialise_game g0) ops
    ∧ landings (initialise_game g0) ops ≤ 4
    ∧ (is_riverbank_full (run (initialise_game g0) ops) = 1 ↔
        ((run (initialise_game g0) ops).riverbank_status.testBit 1 = true
          ∧ (run (initialise_game g0) ops).riverbank_status.testBit 5 = true
          ∧ (run (initialise_game g0) ops).riverbank_status.testBit 9 = true
          ∧ (run (initialise_game g0) ops).riverbank_status.testBit 13 = true))
    ∧ (is_riverbank_full (run (initialise_game g0) ops) = 1 ↔
        landings (initialise_game g0) ops = 4) := by
  obtain ⟨hedge, hcount⟩ := run_holes ops (initialise_game g0) (initialise_game_edges g0)
  rw [initialise_game_holes, Nat.zero_add] at hcount
  have hs := hedge.1
  have hfull := full_iff_hole_bits _ hedge
  refine ⟨fun m hm halive hrow => ?_, hcount, ?_, hfull, ?_⟩
  · cases m with
    | forward =>
      have h := (move_landing _ _ _ _ (move_frog_forward_frog _).1
        (move_frog_forward_frog _).2.1 (move_frog_forward_frog _).2.2
        (move_frog_forward_marks _ hs) hedge).1 ⟨halive, hrow⟩
      exact ⟨h.1, h.2.1, h.2.2.1⟩
    | backward =>
      have h := (move_landing _ _ _ _ (move_frog_backward_frog _).1
        (move_frog_backward_frog _).2.1 (move_frog_backward_frog _).2.2
        (move_frog_backward_marks _ hs) hedge).1 ⟨halive, hrow⟩
      exact ⟨h.1, h.2.1, h.2.2.1⟩
    | left =>
      have h := (move_landing _ _ _ _ (move_frog_to_left_frog _).1
        (move_frog_to_left_frog _).2.1 (move_frog_to_left_frog _).2.2
        (move_frog_to_left_marks _ hs) hedge).1 ⟨halive, hrow⟩
      exact ⟨h.1, h.2.1, h.2.2.1⟩
    | right =>
      have h := (move_landing _ _ _ _ (move_frog_to_right_frog _).1
        (move_frog_to_right_frog _).2.1 (move_frog_to_right_frog _).2.2
        (move_frog_to_right_marks _ hs) hedge).1 ⟨halive, hrow⟩
      exact ⟨h.1, h.2.1, h.2.2.1⟩
    | restart => exact absurd hm (by decide)
    | kill => exact absurd hm (by decide)
    | lane l d => exact absurd hm (show ¬ false = true by decide)
    | channel c d => exact absurd hm (show ¬ false = true by decide)
  · rw [← hcount]
    unfold holes_filled
    cases (run (initialise_game g0) ops).riverbank_status.testBit 1 <;>
      cases (run (initialise_game g0) ops).riverbank_status.testBit 5 <;>
      cases (run (initialise_game g0) ops).riverbank_status.testBit 9 <;>
      cases (run (initialise_game g0) ops).riverbank_status.testBit 13 <;>
      simp
  · rw [hfull, hole_bits_iff_four, hcount]

set_option maxRecDepth 1000000 in
theorem four_landings_fill_riverbank_witness :
    (landings (initialise_game zeroGame) (path_to_hole ++ [Op.forward]) = 1
      ∧ is_riverbank_full (run (initialise_game zeroGame) (path_to_hole ++ [Op.forward])) = 0)
    ∧ landings (initialise_game zeroGame) four_landings = 4
    ∧ is_riverbank_full (run (initialise_game zeroGame) four_landings) = 1 :=
  ⟨by decide, by decide,
   (four_landings_fill_riverbank zeroGame four_landings).2.2.2.2.2 (by decide)⟩

/-! ### The claim about the display -/

/-- C28: for a lane `l` with its offset in [0,64) and a column `i` in 0..15,
`redraw_traffic_lane(l)` gives cell `i` the colour of the lane's vehicles
exactly when the oracle returns 1 at `(l + 1, i)`; for a channel `ch` with its
offset in [0,32), `redraw_river_channel(ch)` gives cell `i` the colour of the
logs exactly when the oracle returns 0 at `(ch + 5, i)`.  The colours of
vehicle and road, and of log and water, are taken to differ. -/
theorem drawn_is_what_kills (p : PixelColours) (g : Game) (i : Nat) (hi : i < 16) :
    (∀ l : Fin 3, 0 ≤ g.lane_position l ∧ g.lane_position l < 64 →
      vehicle_colours p l ≠ COLOUR_ROAD p →
      ((redraw_traffic_lane p g l)[i]? = some (vehicle_colours p l) ↔
        will_frog_die_at_position g ((l.val : Int) + 1) i = 1))
    ∧ (∀ ch : Fin 2, 0 ≤ g.log_position ch ∧ g.log_position ch < 32 →
      COLOUR_LOGS p ≠ COLOUR_WATER p →
      ((redraw_river_channel p g ch)[i]? = some (COLOUR_LOGS p) ↔
        will_frog_die_at_position g ((ch.val : Int) + 5) i = 0)) := by
  constructor
  · intro l hp hne
    have hbp : toUInt8 (g.lane_position l) < 64 := by unfold toUInt8; omega
    have e : (toUInt8 (g.lane_position l) + i) % 64
        = ((g.lane_position l + (i : Int)) % 64).toNat := by unfold toUInt8; omega
    rw [oracle_lane_row g l _ i rfl (by omega) hp, redraw_traffic_lane,
      traffic_lane_cells_get p l 16 _ i hbp hi, e]
    split_ifs with hb
    · exact ⟨fun _ => hb, fun _ => rfl⟩
    · exact ⟨fun h => absurd (Option.some.inj h).symm hne, fun h => absurd h hb⟩
  · intro ch hp hne
    have hbp : toUInt8 (g.log_position ch) < 32 := by unfold toUInt8; omega
    have e : (toUInt8 (g.log_position ch) + i) % 32
        = ((g.log_position ch + (i : Int)) % 32).toNat := by unfold toUInt8; omega
    have hv := oracle_river_row_val g ch _ i rfl (by omega) hp
    rw [hv, redraw_river_channel, river_channel_cells_get p ch 16 _ i hbp hi, e]
    split_ifs with hb
    · exact ⟨fun _ => rfl, fun _ => rfl⟩
    · exact ⟨fun h => absurd (Option.some.inj h).symm hne, fun h => absurd h (by decide)⟩

theorem drawn_is_what_kills_witness :
    redraw_traffic_lane sample_colours (initialise_game zeroGame) 0
        = [0, 0, 0, 15, 15, 0, 0, 15, 15, 0, 0, 0, 0, 0, 15, 15]
    ∧ will_frog_die_at_position (initialise_game zeroGame) 1 3 = 1
    ∧ redraw_river_channel sample_colours
        { initialise_game zeroGame with log_position := fun _ => 30 } 1
        = [60, 60, 0, 0, 60, 60, 60, 0, 0, 60, 60, 0, 60, 60, 60, 0]
    ∧ will_frog_die_at_position
        { initialise_game zeroGame with log_position := fun _ => 30 } 6 1 = 0 :=
  ⟨by decide,
   ((drawn_is_what_kills sample_colours (initialise_game zeroGame) 3 (by decide)).1 0
     (by decide) (by decide)).1 (by decide),
   by decide,
   ((drawn_is_what_kills sample_colours
     { initialise_game zeroGame with log_position := fun _ => 30 } 1 (by decide)).2 1
     (by decide) (by decide)).1 (by decide)⟩

/-! ### The claim about the levels -/

set_option maxRecDepth 1000000 in
/-- C29 fails on the code: `next_level` run after a level that was won, with no
button pushed while the banner scrolls, returns with the riverbank status
still 0xFFFF, not the edge pattern, so `is_riverbank_full` is 1 when
`play_game` starts; with a button pushed the status is the edge pattern. -/
theorem next_level_without_button_keeps_riverbank :
    level_won.game.riverbank_status = 0xFFFF
    ∧ (next_level level_won [false, false, false]).game.riverbank_status = 0xFFFF
    ∧ (next_level level_won [false, false, false]).game.riverbank_status ≠ RIVERBANK
    ∧ is_riverbank_full (next_level level_won [false, false, false]).game = 1
    ∧ (next_level level_won [false, true, false]).game.riverbank_status = RIVERBANK
    ∧ is_riverbank_full (next_level level_won [false, true, false]).game = 0 := by
  have h1 : (next_level level_won [false, false, false]).game = level_won.game := by
    rw [next_level_game, if_neg (by decide)]
  have h2 : (next_level level_won [false, true, false]).game
      = initialise_game level_won.game := by
    rw [next_level_game, if_pos (by decide)]
  rw [h1, h2]
  have h0 : level_won.game.riverbank_status = 0xFFFF := by decide
  refine ⟨h0, h0, ?_, ?_, rfl, ?_⟩
  · rw [h0]
    decide
  · rw [is_riverbank_full_iff]
    exact h0
  · decide

/-! ### The claim about the joystick -/

/-- What `joystick_direction` returns: a value in {-1, 0, 1, 2, 3}; -1 for a
centred stick; otherwise the direction of the stick, or -1 when that direction
is the one reported last and `current_time < (old_time + 250) mod 2^32`, the
test of the repeat delay as the code computes it. -/
lemma joystick_direction_value (j : Joystick) (x y current_time store_time : Nat) :
    ((joystick_direction j x y current_time store_time).1 = -1
      ∨ (joystick_direction j x y current_time store_time).1 = 0
      ∨ (joystick_direction j x y current_time store_time).1 = 1
      ∨ (joystick_direction j x y current_time store_time).1 = 2
      ∨ (joystick_direction j x y current_time store_time).1 = 3)
    ∧ (stick_centred x y → (joystick_direction j x y current_time store_time).1 = -1)
    ∧ (¬ stick_centred x y →
        (joystick_direction j x y current_time store_time).1 =
          if (j.old_direction : Int) = stick_direction x y
              ∧ current_time < (j.old_time + 250) % 4294967296 then -1
          else stick_direction x y)
    ∧ (¬ stick_centred x y → j.old_time + 250 < 4294967296 →
        (joystick_direction j x y current_time store_time).1 =
          if (j.old_direction : Int) = stick_direction x y
              ∧ current_time < j.old_time + 250 then -1
          else stick_direction x y) := by
  have h255 : toInt8 ((toUInt8 (-1) : Nat) : Int) = -1 := by decide
  have h3 : toInt8 ((3 : Nat) : Int) = 3 := by decide
  have h2 : toInt8 ((2 : Nat) : Int) = 2 := by decide
  have h1 : toInt8 ((1 : Nat) : Int) = 1 := by decide
  have h0 : toInt8 ((0 : Nat) : Int) = 0 := by decide
  have hu : toUInt8 (-1) = 255 := by decide
  refine ⟨?_, ?_, ?_, ?_⟩
  · unfold joystick_direction
    dsimp only
    split_ifs <;> simp only [h255, h3, h2, h1, h0] <;> decide
  · intro hc
    unfold stick_centred at hc
    unfold joystick_direction
    dsimp only
    have hx1 : ¬ x < 250 := by omega
    have hy1 : ¬ y < 250 := by omega
    have hx2 : ¬ x > 760 := by omega
    have hy2 : ¬ y > 760 := by omega
    simp only [if_neg hx1, if_neg hy1, if_neg hx2, if_neg hy2]
    split_ifs <;> rfl
  · intro hc
    unfold stick_centred at hc
    unfold joystick_direction stick_direction
    dsimp only
    rw [hu]
    split_ifs <;> simp only [h3, h2, h1, h0] <;> first | rfl | omega
  · intro hc hw
    unfold stick_centred at hc
    unfold joystick_direction stick_direction
    dsimp only
    rw [hu, Nat.mod_eq_of_lt hw]
    split_ifs <;> simp only [h3, h2, h1, h0] <;> first | rfl | omega

/-- C31 fails on the code: the 250 ms repeat delay is tested as
`current_time < old_time + 250` on 32-bit unsigned times, which goes wrong when
the millisecond clock or the sum rolls over.  With the stick to the left
(`x` = 100, direction 3) and 3 the direction reported last: reported at
2^32 - 100 and read again 50 ms later, the function returns 3, not -1; reported
at 2^32 - 300 and read again 310 ms later, when the clock has rolled over to
10, it returns -1, not 3.  Away from the roll-over (reported at 1000) it
returns -1 after 100 ms and 3 after 250 ms. -/
theorem joystick_repeat_delay_wraps :
    ((4294967246 : Int) - 4294967196 = 50
      ∧ (joystick_direction
          { x_value := 0, y_value := 0, old_direction := 3, old_time := 4294967196 }
          100 500 4294967246 4294967246).1 = 3)
    ∧ (((10 : Int) - 4294966996) % 4294967296 = 310
      ∧ (joystick_direction
          { x_value := 0, y_value := 0, old_direction := 3, old_time := 4294966996 }
          100 500 10 10).1 = -1)
    ∧ (joystick_direction
        { x_value := 0, y_value := 0, old_direction := 3, old_time := 1000 }
        100 500 1100 1100).1 = -1
    ∧ (joystick_direction
        { x_value := 0, y_value := 0, old_direction := 3, old_time := 1000 }
        100 500 1250 1250).1 = 3 := by
  decide

end Frogger
